import Mathlib

/-!
Shallow embedding of the two reconcilers of the cluster-api-agent repository:

* `ClusterDeploymentReconciler.Reconcile` / `ensureAgentClusterInstall`
  (the DeploymentLinker, `src/unnamed/part_000`), and
* `AgentClusterInstallReconciler.Reconcile` / `reconcile` / `createKubeconfig`
  / `updateLabels` / `getACIKubeconfig` / `ClusterKubeconfigSecretExists`
  / `GenerateSecretWithOwner`
  (the InstallStatusBridge,
  `src/controlplane/internal/controller/agentclusterinstall_controller.go`).

The external Kubernetes object store (spec section 6) is modelled as a record
of keyed object lists with deterministic Get/List and Create/Update that may
also fail with an injected transient error drawn from a fault schedule
(`KState.faults`), reflecting that every store write can fail
(spec section 7, transient store errors).  Byte strings are modelled as
`String`.  A Go panic (out-of-bounds index) is modelled as `none` in an
`Option` result.
-/

/-- Errors returned by the object store / library calls, following the
classification the code branches on (`apierrors.IsNotFound`,
`apierrors.IsAlreadyExists`, anything else). -/
inductive GoErr where
  | notFound
  | alreadyExists
  | other (msg : String)
deriving DecidableEq, Repr

deriving instance DecidableEq for Except

/-- `ctrl.Result`: `RequeueAfter` is counted in the code's delay unit
(`time.Second`). -/
structure CtrlResult where
  requeue : Bool
  requeueAfter : Int
deriving DecidableEq, Repr

/-- `ctrl.Result{}`. -/
def emptyResult : CtrlResult := ⟨false, 0⟩

/-- `metav1.OwnerReference` (the fields the code reads or writes). -/
structure OwnerReference where
  apiVersion : String
  kind : String
  name : String
  controller : Bool
deriving DecidableEq, Repr

/-- `corev1.ObjectReference` as used for
`AgentConfigSpec.ClusterDeploymentRef` (the fields the code compares). -/
structure ObjectReference where
  apiVersion : String
  kind : String
  ns : String
  name : String
deriving DecidableEq, Repr

/-- `corev1.Secret` (name/namespace, labels, string-keyed data, owner
references, type). -/
structure Secret where
  name : String
  ns : String
  labels : List (String × String)
  data : List (String × String)
  ownerRefs : List OwnerReference
  secretType : String
deriving DecidableEq, Repr

/-- `hiveext.MachineNetworkEntry` (pass-through payload). -/
structure MachineNetworkEntry where
  cidr : String
deriving DecidableEq, Repr

/-- `v1beta1.AgentConfigSpec` — the fields of
`acp.Spec.AgentConfigSpec` the code reads. -/
structure AgentConfigSpec where
  clusterDeploymentRef : Option ObjectReference
  releaseImage : String
  apiVIPs : List String
  ingressVIPs : List String
  sshAuthorizedKey : String
  machineNetwork : List MachineNetworkEntry
deriving DecidableEq, Repr

/-- `AgentControlPlane` (both the v1beta1 and v1alpha1 views used by the two
controllers): metadata, `Spec.AgentConfigSpec`, `Spec.Replicas`, and the two
status booleans. -/
structure AgentControlPlane where
  name : String
  ns : String
  labels : List (String × String)
  ownerRefs : List OwnerReference
  agentConfigSpec : AgentConfigSpec
  replicas : Int
  statusInitialized : Bool
  statusReady : Bool
deriving DecidableEq, Repr

/-- `clusterv1.NetworkRanges`. -/
structure NetworkRanges where
  cidrBlocks : List String
deriving DecidableEq, Repr

/-- `clusterv1.ClusterNetwork` (`Pods` and `Services` are nilable). -/
structure ClusterNetworkSpec where
  pods : Option NetworkRanges
  services : Option NetworkRanges
deriving DecidableEq, Repr

/-- `clusterv1.Cluster` — the orchestration Cluster object
(`Spec.ClusterNetwork` is nilable). -/
structure Cluster where
  name : String
  ns : String
  clusterNetwork : Option ClusterNetworkSpec
deriving DecidableEq, Repr

/-- `hivev1.ClusterImageSet`. -/
structure ClusterImageSet where
  name : String
  ns : String
  releaseImage : String
deriving DecidableEq, Repr

/-- `hivev1.ClusterInstallLocalReference`. -/
structure ClusterInstallLocalReference where
  group : String
  version : String
  kind : String
  name : String
deriving DecidableEq, Repr

/-- `hivev1.ClusterDeployment` — metadata plus `Spec.ClusterInstallRef`. -/
structure ClusterDeployment where
  name : String
  ns : String
  clusterInstallRef : Option ClusterInstallLocalReference
deriving DecidableEq, Repr

/-- `hiveext.ClusterNetworkEntry`. -/
structure ClusterNetworkEntry where
  cidr : String
  hostPrefix : Int
deriving DecidableEq, Repr

/-- `hiveext.Networking`. -/
structure Networking where
  clusterNetwork : List ClusterNetworkEntry
  serviceNetwork : List String
  machineNetwork : List MachineNetworkEntry
deriving DecidableEq, Repr

/-- `hivev1.ClusterMetadata` — only
`AdminKubeconfigSecretRef.Name` is read by the code. -/
structure ClusterMetadata where
  adminKubeconfigSecretRefName : String
deriving DecidableEq, Repr

/-- `hiveext.AgentClusterInstallSpec` (the fields the code writes/reads). -/
structure AgentClusterInstallSpec where
  apiVIP : String
  ingressVIP : String
  clusterDeploymentRefName : String
  controlPlaneAgents : Int
  sshPublicKey : String
  imageSetRefName : String
  networking : Networking
  clusterMetadata : Option ClusterMetadata
deriving DecidableEq, Repr

/-- `hiveext.AgentClusterInstall` — metadata, spec, and
`Status.DebugInfo.State`. -/
structure AgentClusterInstall where
  name : String
  ns : String
  ownerRefs : List OwnerReference
  spec : AgentClusterInstallSpec
  statusDebugInfoState : String
deriving DecidableEq, Repr

/-- The external object store: one keyed list per resource kind the code
touches, plus a schedule of injected transient write errors (consumed in
order by Create/Update calls, modelling that any store write may fail). -/
structure KState where
  clusterDeployments : List ClusterDeployment
  agentControlPlanes : List AgentControlPlane
  clusters : List Cluster
  imageSets : List ClusterImageSet
  agentClusterInstalls : List AgentClusterInstall
  secrets : List Secret
  faults : List GoErr
deriving DecidableEq, Repr

/-! ### Generic keyed-store operations (spec section 6 interface) -/

/-- `Get`: first object in the list with the requested name and namespace. -/
def findByKey (nm nsOf : α → String) (xs : List α) (n s : String) : Option α :=
  xs.find? fun x => nm x == n && nsOf x == s

/-- The in-place replacement a successful `Update` performs. -/
def replaceByKey (nm nsOf : α → String) (xs : List α) (y : α) : List α :=
  xs.map fun x => if nm x == nm y && nsOf x == nsOf y then y else x

/-! ### Constants from the imported packages -/

/-- `clusterv1.ClusterNameLabel`. -/
def clusterNameLabel : String := "cluster.x-k8s.io/cluster-name"

/-- `clusterv1.ClusterSecretType`. -/
def clusterSecretType : String := "cluster.x-k8s.io/secret"

/-- `aimodels.ClusterStatusAddingHosts`. -/
def clusterStatusAddingHosts : String := "adding-hosts"

/-- `agentControlPlaneKind` (shared constant of the controller packages). -/
def agentControlPlaneKind : String := "AgentControlPlane"

/-- Go map read `m[k]` on a `map[string]string`: zero value `""` when the
key is absent. -/
def labelGet (xs : List (String × String)) (k : String) : String :=
  ((xs.find? fun p => p.1 == k).map Prod.snd).getD ""

/-- Go map write `m[k] = v`. -/
def labelSet (xs : List (String × String)) (k v : String) : List (String × String) :=
  if xs.any fun p => p.1 == k then
    xs.map fun p => if p.1 == k then (k, v) else p
  else xs ++ [(k, v)]

/-- Go comma-ok map read `v, ok := m[k]` on `Secret.Data`. -/
def dataGet (xs : List (String × String)) (k : String) : Option String :=
  (xs.find? fun p => p.1 == k).map Prod.snd

/-! ### Store reads (deterministic) -/

def getSecret (s : KState) (name ns : String) : Option Secret :=
  findByKey Secret.name Secret.ns s.secrets name ns

def getACP (s : KState) (name ns : String) : Option AgentControlPlane :=
  findByKey AgentControlPlane.name AgentControlPlane.ns s.agentControlPlanes name ns

def getCluster (s : KState) (name ns : String) : Option Cluster :=
  findByKey Cluster.name Cluster.ns s.clusters name ns

def getClusterDeployment (s : KState) (name ns : String) : Option ClusterDeployment :=
  findByKey ClusterDeployment.name ClusterDeployment.ns s.clusterDeployments name ns

def getACI (s : KState) (name ns : String) : Option AgentClusterInstall :=
  findByKey AgentClusterInstall.name AgentClusterInstall.ns s.agentClusterInstalls name ns

/-! ### Store writes (fault schedule consulted first, then deterministic
`AlreadyExists`/`NotFound` behaviour) -/

def createSecret (s : KState) (sec : Secret) : Option GoErr × KState :=
  match s.faults with
  | e :: rest => (some e, { s with faults := rest })
  | [] =>
    if (findByKey Secret.name Secret.ns s.secrets sec.name sec.ns).isSome then
      (some .alreadyExists, s)
    else (none, { s with secrets := s.secrets ++ [sec] })

def updateSecret (s : KState) (sec : Secret) : Option GoErr × KState :=
  match s.faults with
  | e :: rest => (some e, { s with faults := rest })
  | [] =>
    if (findByKey Secret.name Secret.ns s.secrets sec.name sec.ns).isSome then
      (none, { s with secrets := replaceByKey Secret.name Secret.ns s.secrets sec })
    else (some .notFound, s)

def createImageSet (s : KState) (is : ClusterImageSet) : Option GoErr × KState :=
  match s.faults with
  | e :: rest => (some e, { s with faults := rest })
  | [] =>
    if (findByKey ClusterImageSet.name ClusterImageSet.ns s.imageSets is.name is.ns).isSome then
      (some .alreadyExists, s)
    else (none, { s with imageSets := s.imageSets ++ [is] })

def createACI (s : KState) (aci : AgentClusterInstall) : Option GoErr × KState :=
  match s.faults with
  | e :: rest => (some e, { s with faults := rest })
  | [] =>
    if (findByKey AgentClusterInstall.name AgentClusterInstall.ns s.agentClusterInstalls aci.name aci.ns).isSome then
      (some .alreadyExists, s)
    else (none, { s with agentClusterInstalls := s.agentClusterInstalls ++ [aci] })

def updateClusterDeployment (s : KState) (cd : ClusterDeployment) : Option GoErr × KState :=
  match s.faults with
  | e :: rest => (some e, { s with faults := rest })
  | [] =>
    if (findByKey ClusterDeployment.name ClusterDeployment.ns s.clusterDeployments cd.name cd.ns).isSome then
      (none, { s with clusterDeployments := replaceByKey ClusterDeployment.name ClusterDeployment.ns s.clusterDeployments cd })
    else (some .notFound, s)

def updateACPStatus (s : KState) (acp : AgentControlPlane) : Option GoErr × KState :=
  match s.faults with
  | e :: rest => (some e, { s with faults := rest })
  | [] =>
    if (findByKey AgentControlPlane.name AgentControlPlane.ns s.agentControlPlanes acp.name acp.ns).isSome then
      (none, { s with agentControlPlanes := replaceByKey AgentControlPlane.name AgentControlPlane.ns s.agentControlPlanes acp })
    else (some .notFound, s)

/-! ## DeploymentLinker (`ClusterDeploymentReconciler`, `src/unnamed/part_000`) -/

/-- Split a character list at every `/` (the separator structure
`schema.ParseGroupVersion` keys on). -/
def splitSlash : List Char → List (List Char)
  | [] => [[]]
  | c :: cs =>
    if c = '/' then [] :: splitSlash cs
    else
      match splitSlash cs with
      | [] => [[c]]
      | g :: gs => (c :: g) :: gs

/-- `schema.ParseGroupVersion`, restricted to the group component: zero or
one slash parses (no slash means empty group), more is an error. -/
def parseGroupVersionGroup (gv : String) : Except GoErr String :=
  match splitSlash gv.data with
  | [_] => .ok ""
  | [g, _] => .ok (String.mk g)
  | _ => .error (.other "unexpected GroupVersion string")

/-- Loop body of the external library call `util.GetOwnerCluster`: scan the
owner references for one of kind `Cluster` in the `cluster.x-k8s.io` group;
when found, `GetClusterByName` (a missing Cluster is a wrapped Get error);
when no such reference exists, `nil, nil`. -/
def getOwnerClusterLoop (s : KState) (ns : String) :
    List OwnerReference → Except GoErr (Option Cluster)
  | [] => .ok none
  | r :: rest =>
    if r.kind ≠ "Cluster" then getOwnerClusterLoop s ns rest
    else
      match parseGroupVersionGroup r.apiVersion with
      | .error e => .error e
      | .ok g =>
        if g = "cluster.x-k8s.io" then
          match getCluster s r.name ns with
          | none => .error (.other ("failed to get Cluster/" ++ r.name))
          | some c => .ok (some c)
        else getOwnerClusterLoop s ns rest

/-- `util.GetOwnerCluster(ctx, client, acp.ObjectMeta)` (external
cluster-api library). -/
def getOwnerCluster (s : KState) (acp : AgentControlPlane) : Except GoErr (Option Cluster) :=
  getOwnerClusterLoop s acp.ns acp.ownerRefs

/-- `IsAgentControlPlaneReferencingClusterDeployment`: the GVK-string
comparison with `hive.openshift.io/v1, Kind=ClusterDeployment` holds exactly
when the reference's apiVersion/kind are the ClusterDeployment ones. -/
def isAgentControlPlaneReferencingClusterDeployment
    (agentCP : AgentControlPlane) (clusterDeployment : ClusterDeployment) : Bool :=
  match agentCP.agentConfigSpec.clusterDeploymentRef with
  | none => false
  | some ref =>
    ref.apiVersion == "hive.openshift.io/v1" && ref.kind == "ClusterDeployment" &&
    ref.ns == clusterDeployment.ns && ref.name == clusterDeployment.name

/-- `metav1.NewControllerRef(&acp, v1beta1.GroupVersion.WithKind(agentControlPlaneKind))`
as built by the DeploymentLinker. -/
def newControllerRefBeta (acp : AgentControlPlane) : OwnerReference :=
  ⟨"controlplane.cluster.x-k8s.io/v1beta1", agentControlPlaneKind, acp.name, true⟩

/-- `metav1.NewControllerRef(&acp, controlplanev1alpha1.GroupVersion.WithKind(agentControlPlaneKind))`
as built by the InstallStatusBridge. -/
def newControllerRefAlpha (acp : AgentControlPlane) : OwnerReference :=
  ⟨"controlplane.cluster.x-k8s.io/v1alpha1", agentControlPlaneKind, acp.name, true⟩

/-- Network derivation of `ensureAgentClusterInstall` (source lines 128 to
134): each pod CIDR block of the Cluster becomes a cluster-network entry
with host prefix 23; a nil `ClusterNetwork` or nil `Pods` yields the empty
list. -/
def deriveClusterNetwork (cluster : Cluster) : List ClusterNetworkEntry :=
  match cluster.clusterNetwork with
  | some cn =>
    match cn.pods with
    | some pods => pods.cidrBlocks.map fun cidrBlock => ⟨cidrBlock, 23⟩
    | none => []
  | none => []

/-- Service-network derivation of `ensureAgentClusterInstall` (source lines
135 to 138): the Cluster's service CIDR blocks pass through unchanged; a
nil `ClusterNetwork` or nil `Services` yields the empty list. -/
def deriveServiceNetwork (cluster : Cluster) : List String :=
  match cluster.clusterNetwork with
  | some cn =>
    match cn.services with
    | some svcs => svcs.cidrBlocks
    | none => []
  | none => []

/-- The `imageSet` object literal of `ensureAgentClusterInstall` (source
lines 112 to 120): name and namespace of the ClusterDeployment, release
image from the AgentControlPlane config. -/
def mkImageSet (clusterDeployment : ClusterDeployment) (acp : AgentControlPlane) :
    ClusterImageSet :=
  ⟨clusterDeployment.name, clusterDeployment.ns, acp.agentConfigSpec.releaseImage⟩

/-- The `agentClusterInstall` object literal of `ensureAgentClusterInstall`
(source lines 141 to 165), given the first API VIP and first ingress VIP. -/
def mkAgentClusterInstall (clusterDeployment : ClusterDeployment)
    (acp : AgentControlPlane) (cluster : Cluster)
    (imageSetName apiVIP ingressVIP : String) : AgentClusterInstall :=
  { name := clusterDeployment.name
    ns := clusterDeployment.ns
    ownerRefs := [newControllerRefBeta acp]
    spec :=
      { apiVIP := apiVIP
        ingressVIP := ingressVIP
        clusterDeploymentRefName := clusterDeployment.name
        controlPlaneAgents := acp.replicas
        sshPublicKey := acp.agentConfigSpec.sshAuthorizedKey
        imageSetRefName := imageSetName
        networking :=
          { clusterNetwork := deriveClusterNetwork cluster
            serviceNetwork := deriveServiceNetwork cluster
            machineNetwork := acp.agentConfigSpec.machineNetwork }
        clusterMetadata := none }
    statusDebugInfoState := "" }

/-- Rest of `ensureAgentClusterInstall` after the ClusterImageSet create
(AgentClusterInstall construction and creation, and the `ClusterInstallRef`
update).  The unguarded `APIVIPs[0]` / `IngressVIPs[0]` indexing panics on
an empty list: result `none`. -/
def ensureACIRest (s : KState) (clusterDeployment : ClusterDeployment)
    (acp : AgentControlPlane) (cluster : Cluster) (imageSetName : String) :
    Option (CtrlResult × Option GoErr) × KState :=
  match acp.agentConfigSpec.apiVIPs, acp.agentConfigSpec.ingressVIPs with
  | apiVIP :: _, ingressVIP :: _ =>
    match createACI s
        (mkAgentClusterInstall clusterDeployment acp cluster imageSetName apiVIP ingressVIP) with
    | (some e, s₂) => (some (emptyResult, some e), s₂)
    | (none, s₂) =>
      match updateClusterDeployment s₂
          { clusterDeployment with
            clusterInstallRef := some
              ⟨"extensions.hive.openshift.io", "v1beta1", "AgentClusterInstall",
                (mkAgentClusterInstall clusterDeployment acp cluster imageSetName
                  apiVIP ingressVIP).name⟩ } with
      | (e, s₃) => (some (emptyResult, e), s₃)
  | _, _ => (none, s)

/-- `ensureAgentClusterInstall`: owner-Cluster gate, `ClusterInstallRef`
short-circuit, ClusterImageSet create (AlreadyExists swallowed), then
`ensureACIRest`. -/
def ensureAgentClusterInstall (s : KState) (clusterDeployment : ClusterDeployment)
    (acp : AgentControlPlane) : Option (CtrlResult × Option GoErr) × KState :=
  match getOwnerCluster s acp with
  | .error e => (some (emptyResult, some e), s)
  | .ok none => (some (⟨true, 10⟩, none), s)
  | .ok (some cluster) =>
    match clusterDeployment.clusterInstallRef with
    | some _ => (some (emptyResult, none), s)
    | none =>
      match createImageSet s (mkImageSet clusterDeployment acp) with
      | (some e, s₁) =>
        if e ≠ .alreadyExists then (some (emptyResult, some e), s₁)
        else ensureACIRest s₁ clusterDeployment acp cluster (mkImageSet clusterDeployment acp).name
      | (none, s₁) =>
        ensureACIRest s₁ clusterDeployment acp cluster (mkImageSet clusterDeployment acp).name

/-- `ClusterDeploymentReconciler.Reconcile`: fetch the ClusterDeployment
(NotFound is success), list the AgentControlPlanes in its namespace, and run
`ensureAgentClusterInstall` for the first one referencing it. -/
def clusterDeploymentReconcile (s : KState) (name ns : String) :
    Option (CtrlResult × Option GoErr) × KState :=
  match getClusterDeployment s name ns with
  | none => (some (emptyResult, none), s)
  | some clusterDeployment =>
    match (s.agentControlPlanes.filter fun a => a.ns == clusterDeployment.ns).find? fun acp =>
        isAgentControlPlaneReferencingClusterDeployment acp clusterDeployment with
    | none => (some (emptyResult, none), s)
    | some acp => ensureAgentClusterInstall s clusterDeployment acp

/-! ## InstallStatusBridge (`AgentClusterInstallReconciler`,
`src/controlplane/internal/controller/agentclusterinstall_controller.go`) -/

/-- `hasKubeconfigRef`. -/
def hasKubeconfigRef (aci : AgentClusterInstall) : Bool :=
  match aci.spec.clusterMetadata with
  | none => false
  | some cm => cm.adminKubeconfigSecretRefName != ""

/-- `isInstalled`. -/
def isInstalled (aci : AgentClusterInstall) : Bool :=
  aci.statusDebugInfoState == clusterStatusAddingHosts

/-- `ClusterKubeconfigSecretExists`: Get of `<clusterName>-kubeconfig`; in
the deterministic store a read fails only with NotFound, so this is
existence. -/
def clusterKubeconfigSecretExists (s : KState) (clusterName ns : String) : Bool :=
  (getSecret s (clusterName ++ "-kubeconfig") ns).isSome

/-- `GenerateSecretWithOwner`. -/
def generateSecretWithOwner (clusterName clusterNamespace : String) (data : String)
    (owner : OwnerReference) : Secret :=
  { name := clusterName ++ "-kubeconfig"
    ns := clusterNamespace
    labels := [(clusterNameLabel, clusterName)]
    data := [("value", data)]
    ownerRefs := [owner]
    secretType := clusterSecretType }

/-- `getACIKubeconfig`: Get the secret named by
`aci.Spec.ClusterMetadata.AdminKubeconfigSecretRef.Name` in the
AgentControlPlane's namespace. -/
def getACIKubeconfig (s : KState) (secretName : String) (agentCP : AgentControlPlane) :
    Except GoErr Secret :=
  match getSecret s secretName agentCP.ns with
  | none => .error .notFound
  | some sec => .ok sec

/-- The in-memory effect of `updateLabels` on the object: merge the given
labels into the object's labels (`SetLabels`). -/
def withMergedLabels (sec : Secret) (labels : List (String × String)) : Secret :=
  { sec with labels := labels.foldl (fun acc kv => labelSet acc kv.1 kv.2) sec.labels }

/-- `updateLabels` applied to a secret: merge the given labels into the
object's labels and persist with Update. -/
def updateLabelsSecret (s : KState) (sec : Secret) (labels : List (String × String)) :
    Option GoErr × Secret × KState :=
  match updateSecret s (withMergedLabels sec labels) with
  | (e, s') => (e, withMergedLabels sec labels, s')

/-- `createKubeconfig`: read the `kubeconfig` key, build the
`<cluster-name>-kubeconfig` secret, Create it, and on AlreadyExists fall
back to Update. -/
def createKubeconfig (s : KState) (kubeconfigSecret : Secret) (clusterName : String)
    (acp : AgentControlPlane) : Option GoErr × KState :=
  match dataGet kubeconfigSecret.data "kubeconfig" with
  | none => (some (.other "kubeconfig not found in secret"), s)
  | some kubeconfig =>
    match createSecret s
        (generateSecretWithOwner clusterName acp.ns kubeconfig (newControllerRefAlpha acp)) with
    | (none, s') => (none, s')
    | (some e, s') =>
      if e ≠ .alreadyExists then (some e, s')
      else updateSecret s'
        (generateSecretWithOwner clusterName acp.ns kubeconfig (newControllerRefAlpha acp))

/-- `AgentClusterInstallReconciler.reconcile` (the credential-bridging
step).  Returns the Go error, the in-memory AgentControlPlane (mutated via
the pointer the caller passed), and the store state. -/
def aciInnerReconcile (s : KState) (aci : AgentClusterInstall)
    (acp : AgentControlPlane) : Option GoErr × AgentControlPlane × KState :=
  if ¬ hasKubeconfigRef aci then (none, acp, s)
  else
    match aci.spec.clusterMetadata with
    | none => (none, acp, s)
    | some cm =>
      match getACIKubeconfig s cm.adminKubeconfigSecretRefName acp with
      | .error e => (some e, acp, s)
      | .ok kubeconfigSecret =>
        match updateLabelsSecret s kubeconfigSecret
            [(clusterNameLabel, labelGet acp.labels clusterNameLabel)] with
        | (some e, _, s₁) => (some e, acp, s₁)
        | (none, kubeconfigSecret', s₁) =>
          match
            (if ¬ clusterKubeconfigSecretExists s₁ (labelGet acp.labels clusterNameLabel) acp.ns
             then createKubeconfig s₁ kubeconfigSecret' (labelGet acp.labels clusterNameLabel) acp
             else (none, s₁)) with
          | (some e, s₂) => (some e, acp, s₂)
          | (none, s₂) =>
            match updateACPStatus s₂ { acp with statusInitialized := true } with
            | (some e, s₃) => (some e, { acp with statusInitialized := true }, s₃)
            | (none, s₃) => (none, { acp with statusInitialized := true }, s₃)

/-- Modelled from the spec: `util.GetTypedOwner` (a utility of this
repository that is not among the sources) resolves the owning
AgentControlPlane of the AgentClusterInstall via its owner reference;
failure to resolve is reported (spec section 4.2 step 2). -/
def getTypedOwnerACP (s : KState) (aci : AgentClusterInstall) :
    Except GoErr AgentControlPlane :=
  match aci.ownerRefs.find? fun r => r.kind == agentControlPlaneKind with
  | none => .error (.other "no AgentControlPlane owner reference")
  | some r =>
    match getACP s r.name aci.ns with
    | none => .error .notFound
    | some acp => .ok acp

/-- `AgentClusterInstallReconciler.Reconcile`: fetch the
AgentClusterInstall (NotFound is success), resolve the owning
AgentControlPlane, run the credential-bridging `reconcile`, then if
`isInstalled` set `Status.Ready = true` and persist. -/
def agentClusterInstallReconcile (s : KState) (name ns : String) :
    CtrlResult × Option GoErr × KState :=
  match getACI s name ns with
  | none => (emptyResult, none, s)
  | some aci =>
    match getTypedOwnerACP s aci with
    | .error e => (emptyResult, some e, s)
    | .ok acp =>
      match aciInnerReconcile s aci acp with
      | (some e, _, s') => (emptyResult, some e, s')
      | (none, acp', s') =>
        if isInstalled aci then
          match updateACPStatus s' { acp' with statusReady := true } with
          | (some e, s'') => (emptyResult, some e, s'')
          | (none, s'') => (emptyResult, none, s'')
        else (emptyResult, none, s')

/-! ## Reconcile sequences (for the monotonicity claim) -/

/-- One delivery of either reconciler for a given object identity. -/
inductive ReconcileOp where
  | linker (name ns : String)
  | bridge (name ns : String)
deriving DecidableEq, Repr

/-- The store state after one reconcile invocation (a DeploymentLinker
panic leaves the store at the state it had reached). -/
def runOp (s : KState) (op : ReconcileOp) : KState :=
  match op with
  | .linker n ns => (clusterDeploymentReconcile s n ns).2
  | .bridge n ns => (agentClusterInstallReconcile s n ns).2.2

/-- The store state after a sequence of reconcile invocations. -/
def runOps (s : KState) (ops : List ReconcileOp) : KState :=
  ops.foldl runOp s

/-! ## Store lemmas -/

theorem findByKey_key {nm nsOf : α → String} {xs : List α} {n s : String} {x : α}
    (h : findByKey nm nsOf xs n s = some x) : nm x = n ∧ nsOf x = s := by
  unfold findByKey at h
  have hp := List.find?_some h
  simpa [Bool.and_eq_true, beq_iff_eq] using hp

theorem find?_cons_pos (p : α → Bool) (a : α) (l : List α) (h : p a = true) :
    List.find? p (a :: l) = some a :=
  List.find?_cons_of_pos l h

theorem find?_cons_neg (p : α → Bool) (a : α) (l : List α) (h : ¬ p a = true) :
    List.find? p (a :: l) = List.find? p l :=
  List.find?_cons_of_neg l h

theorem findByKey_append {nm nsOf : α → String} (xs ys : List α) (n s : String) :
    findByKey nm nsOf (xs ++ ys) n s =
      (findByKey nm nsOf xs n s).orElse fun _ => findByKey nm nsOf ys n s := by
  unfold findByKey
  induction xs with
  | nil => simp
  | cons x xs ih =>
    by_cases hx : (nm x == n && nsOf x == s) = true
    · rw [List.cons_append, find?_cons_pos _ x (xs ++ ys) hx, find?_cons_pos _ x xs hx]
      rfl
    · rw [List.cons_append, find?_cons_neg _ x (xs ++ ys) hx, find?_cons_neg _ x xs hx, ih]

theorem findByKey_replaceByKey_ne {nm nsOf : α → String} {xs : List α} {y : α} {n s : String}
    (h : ¬(nm y = n ∧ nsOf y = s)) :
    findByKey nm nsOf (replaceByKey nm nsOf xs y) n s = findByKey nm nsOf xs n s := by
  have hy : ¬(nm y == n && nsOf y == s) = true := by
    simpa [Bool.and_eq_true, beq_iff_eq] using h
  unfold findByKey replaceByKey
  induction xs with
  | nil => simp
  | cons x xs ih =>
    simp only [List.map_cons]
    by_cases hx : (nm x == nm y && nsOf x == nsOf y) = true
    · have hxe : nm x = nm y ∧ nsOf x = nsOf y := by
        simpa [Bool.and_eq_true, beq_iff_eq] using hx
      have hx2 : ¬(nm x == n && nsOf x == s) = true := by
        rw [hxe.1, hxe.2]; exact hy
      rw [if_pos hx, find?_cons_neg _ y _ hy, find?_cons_neg _ x xs hx2]
      exact ih
    · rw [if_neg hx]
      by_cases hq : (nm x == n && nsOf x == s) = true
      · rw [find?_cons_pos _ x _ hq, find?_cons_pos _ x xs hq]
      · rw [find?_cons_neg _ x _ hq, find?_cons_neg _ x xs hq]
        exact ih

theorem findByKey_replaceByKey_self {nm nsOf : α → String} {xs : List α} {y : α}
    (h : (findByKey nm nsOf xs (nm y) (nsOf y)).isSome) :
    findByKey nm nsOf (replaceByKey nm nsOf xs y) (nm y) (nsOf y) = some y := by
  unfold findByKey replaceByKey
  unfold findByKey at h
  induction xs with
  | nil => simp at h
  | cons x xs ih =>
    simp only [List.map_cons]
    by_cases hx : (nm x == nm y && nsOf x == nsOf y) = true
    · rw [if_pos hx]
      exact find?_cons_pos _ y _ (by simp)
    · rw [if_neg hx, find?_cons_neg _ x _ hx]
      rw [find?_cons_neg _ x xs hx] at h
      exact ih h

theorem replaceByKey_replaceByKey {nm nsOf : α → String} {xs : List α} {y₁ y₂ : α}
    (h₁ : nm y₁ = nm y₂) (h₂ : nsOf y₁ = nsOf y₂) :
    replaceByKey nm nsOf (replaceByKey nm nsOf xs y₁) y₂ = replaceByKey nm nsOf xs y₂ := by
  unfold replaceByKey
  induction xs with
  | nil => simp
  | cons x xs ih =>
    simp only [List.map_cons, List.cons.injEq]
    refine ⟨?_, ih⟩
    by_cases hx : (nm x == nm y₁ && nsOf x == nsOf y₁) = true
    · have hxe : nm x = nm y₁ ∧ nsOf x = nsOf y₁ := by
        simpa [Bool.and_eq_true, beq_iff_eq] using hx
      rw [if_pos hx,
        if_pos (by simp [beq_iff_eq, h₁, h₂] : (nm y₁ == nm y₂ && nsOf y₁ == nsOf y₂) = true),
        if_pos (by simp [beq_iff_eq, hxe.1, hxe.2, h₁, h₂] :
          (nm x == nm y₂ && nsOf x == nsOf y₂) = true)]
    · have hx2 : ¬(nm x == nm y₂ && nsOf x == nsOf y₂) = true := by
        intro hc
        have hce : nm x = nm y₂ ∧ nsOf x = nsOf y₂ := by
          simpa [Bool.and_eq_true, beq_iff_eq] using hc
        exact hx (by simp [Bool.and_eq_true, beq_iff_eq, hce.1, hce.2, h₁, h₂])
      rw [if_neg hx, if_neg hx2]

/-! ### Exact behaviour of the store writes under an empty fault schedule -/

theorem createSecret_ok (s : KState) (x : Secret) (hf : s.faults = [])
    (hx : getSecret s x.name x.ns = none) :
    createSecret s x = (none, { s with secrets := s.secrets ++ [x] }) := by
  unfold getSecret at hx
  unfold createSecret
  rw [hf]
  simp [hx]

theorem updateSecret_ok (s : KState) (x : Secret) (hf : s.faults = [])
    (hx : (getSecret s x.name x.ns).isSome) :
    updateSecret s x =
      (none, { s with secrets := replaceByKey Secret.name Secret.ns s.secrets x }) := by
  unfold getSecret at hx
  unfold updateSecret
  rw [hf]
  simp [hx]

theorem createImageSet_ok (s : KState) (x : ClusterImageSet) (hf : s.faults = [])
    (hx : findByKey ClusterImageSet.name ClusterImageSet.ns s.imageSets x.name x.ns = none) :
    createImageSet s x = (none, { s with imageSets := s.imageSets ++ [x] }) := by
  unfold createImageSet
  rw [hf]
  simp [hx]

theorem createImageSet_exists (s : KState) (x : ClusterImageSet) (hf : s.faults = [])
    (hx : (findByKey ClusterImageSet.name ClusterImageSet.ns s.imageSets x.name x.ns).isSome) :
    createImageSet s x = (some .alreadyExists, s) := by
  unfold createImageSet
  rw [hf]
  simp [hx]

theorem createACI_ok (s : KState) (x : AgentClusterInstall) (hf : s.faults = [])
    (hx : getACI s x.name x.ns = none) :
    createACI s x = (none, { s with agentClusterInstalls := s.agentClusterInstalls ++ [x] }) := by
  unfold getACI at hx
  unfold createACI
  rw [hf]
  simp [hx]

theorem createACI_exists (s : KState) (x : AgentClusterInstall) (hf : s.faults = [])
    (hx : (getACI s x.name x.ns).isSome) :
    createACI s x = (some .alreadyExists, s) := by
  unfold getACI at hx
  unfold createACI
  rw [hf]
  simp [hx]

theorem updateClusterDeployment_ok (s : KState) (x : ClusterDeployment) (hf : s.faults = [])
    (hx : (getClusterDeployment s x.name x.ns).isSome) :
    updateClusterDeployment s x =
      (none,
        { s with
          clusterDeployments :=
            replaceByKey ClusterDeployment.name ClusterDeployment.ns s.clusterDeployments x }) := by
  unfold getClusterDeployment at hx
  unfold updateClusterDeployment
  rw [hf]
  simp [hx]

theorem updateACPStatus_ok (s : KState) (x : AgentControlPlane) (hf : s.faults = [])
    (hx : (getACP s x.name x.ns).isSome) :
    updateACPStatus s x =
      (none,
        { s with
          agentControlPlanes :=
            replaceByKey AgentControlPlane.name AgentControlPlane.ns s.agentControlPlanes x }) := by
  unfold getACP at hx
  unfold updateACPStatus
  rw [hf]
  simp [hx]

/-! ### Component preservation of the store writes -/

theorem createSecret_acps (s : KState) (x : Secret) :
    ((createSecret s x).2).agentControlPlanes = s.agentControlPlanes := by
  unfold createSecret
  split
  · simp
  · split <;> simp

theorem updateSecret_acps (s : KState) (x : Secret) :
    ((updateSecret s x).2).agentControlPlanes = s.agentControlPlanes := by
  unfold updateSecret
  split
  · simp
  · split <;> simp

theorem createImageSet_acps (s : KState) (x : ClusterImageSet) :
    ((createImageSet s x).2).agentControlPlanes = s.agentControlPlanes := by
  unfold createImageSet
  split
  · simp
  · split <;> simp

theorem createACI_acps (s : KState) (x : AgentClusterInstall) :
    ((createACI s x).2).agentControlPlanes = s.agentControlPlanes := by
  unfold createACI
  split
  · simp
  · split <;> simp

theorem updateClusterDeployment_acps (s : KState) (x : ClusterDeployment) :
    ((updateClusterDeployment s x).2).agentControlPlanes = s.agentControlPlanes := by
  unfold updateClusterDeployment
  split
  · simp
  · split <;> simp

theorem updateACPStatus_secrets (s : KState) (x : AgentControlPlane) :
    ((updateACPStatus s x).2).secrets = s.secrets := by
  unfold updateACPStatus
  split
  · simp
  · split <;> simp

theorem updateACPStatus_cases (s : KState) (x : AgentControlPlane) :
    ((updateACPStatus s x).2).agentControlPlanes = s.agentControlPlanes ∨
    ((findByKey AgentControlPlane.name AgentControlPlane.ns s.agentControlPlanes x.name x.ns).isSome ∧
     (updateACPStatus s x).1 = none ∧
     ((updateACPStatus s x).2).agentControlPlanes =
       replaceByKey AgentControlPlane.name AgentControlPlane.ns s.agentControlPlanes x) := by
  unfold updateACPStatus
  split
  · left; simp
  · split
    · right
      refine ⟨by assumption, by simp, by simp⟩
    · left; simp

/-! ### The DeploymentLinker never touches AgentControlPlanes -/

theorem ensureACIRest_acps (s : KState) (cd : ClusterDeployment) (acp : AgentControlPlane)
    (cluster : Cluster) (isn : String) :
    ((ensureACIRest s cd acp cluster isn).2).agentControlPlanes = s.agentControlPlanes := by
  unfold ensureACIRest
  split
  · split
    · rename_i heq
      have h1 := congrArg (fun r => r.2.agentControlPlanes) heq
      dsimp only at h1
      rw [createACI_acps] at h1
      simpa using h1.symm
    · rename_i s₂ heq
      have h1 := congrArg (fun r => r.2.agentControlPlanes) heq
      dsimp only at h1
      rw [createACI_acps] at h1
      split
      rename_i e s₃ heq2
      have h2 := congrArg (fun r => r.2.agentControlPlanes) heq2
      dsimp only at h2
      rw [updateClusterDeployment_acps] at h2
      simp at h1 h2 ⊢
      rw [← h2, ← h1]
  · simp

theorem ensureAgentClusterInstall_acps (s : KState) (cd : ClusterDeployment)
    (acp : AgentControlPlane) :
    ((ensureAgentClusterInstall s cd acp).2).agentControlPlanes = s.agentControlPlanes := by
  unfold ensureAgentClusterInstall
  split
  · simp
  · simp
  · split
    · simp
    · split
      · rename_i e s₁ heq
        have h1 := congrArg (fun r => r.2.agentControlPlanes) heq
        dsimp only at h1
        rw [createImageSet_acps] at h1
        split
        · simpa using h1.symm
        · rw [ensureACIRest_acps, ← h1]
      · rename_i s₁ heq
        have h1 := congrArg (fun r => r.2.agentControlPlanes) heq
        dsimp only at h1
        rw [createImageSet_acps] at h1
        rw [ensureACIRest_acps, ← h1]

theorem clusterDeploymentReconcile_acps (s : KState) (n ns : String) :
    ((clusterDeploymentReconcile s n ns).2).agentControlPlanes = s.agentControlPlanes := by
  unfold clusterDeploymentReconcile
  split
  · simp
  · split
    · simp
    · exact ensureAgentClusterInstall_acps s _ _

/-! ### The InstallStatusBridge and the AgentControlPlane list -/

theorem getTypedOwnerACP_stored (s : KState) (aci : AgentClusterInstall)
    (acp : AgentControlPlane) (h : getTypedOwnerACP s aci = .ok acp) :
    getACP s acp.name acp.ns = some acp := by
  unfold getTypedOwnerACP at h
  split at h
  · exact absurd h (by simp)
  · rename_i r hr
    split at h
    · exact absurd h (by simp)
    · rename_i a ha
      have hae : a = acp := by simpa using h
      subst hae
      have hk := findByKey_key (by simpa [getACP] using ha)
      unfold getACP
      rw [hk.1, hk.2]
      simpa [getACP] using ha

theorem createKubeconfig_acps (s : KState) (sec : Secret) (cn : String)
    (acp : AgentControlPlane) :
    ((createKubeconfig s sec cn acp).2).agentControlPlanes = s.agentControlPlanes := by
  unfold createKubeconfig
  split
  · simp
  · split
    · rename_i s' heq
      have h1 := congrArg (fun r => r.2.agentControlPlanes) heq
      dsimp only at h1
      rw [createSecret_acps] at h1
      simpa using h1.symm
    · rename_i e s' heq
      have h1 := congrArg (fun r => r.2.agentControlPlanes) heq
      dsimp only at h1
      rw [createSecret_acps] at h1
      split
      · simpa using h1.symm
      · rw [updateSecret_acps, ← h1]

theorem aciInner_cases (s : KState) (aci : AgentClusterInstall) (acp : AgentControlPlane) :
    ((aciInnerReconcile s aci acp).2.1 = acp ∨
      (aciInnerReconcile s aci acp).2.1 = { acp with statusInitialized := true }) ∧
    ((aciInnerReconcile s aci acp).2.2.agentControlPlanes = s.agentControlPlanes ∨
      ((findByKey AgentControlPlane.name AgentControlPlane.ns s.agentControlPlanes
          acp.name acp.ns).isSome ∧
        (aciInnerReconcile s aci acp).2.1 = { acp with statusInitialized := true } ∧
        (aciInnerReconcile s aci acp).2.2.agentControlPlanes =
          replaceByKey AgentControlPlane.name AgentControlPlane.ns s.agentControlPlanes
            { acp with statusInitialized := true })) := by
  unfold aciInnerReconcile
  split
  · exact ⟨Or.inl rfl, Or.inl rfl⟩
  · split
    · exact ⟨Or.inl rfl, Or.inl rfl⟩
    · split
      · exact ⟨Or.inl rfl, Or.inl rfl⟩
      · rename_i sec _
        split
        · rename_i e x s₁ heq
          have h1 := congrArg (fun r => r.2.2.agentControlPlanes) heq
          dsimp only at h1
          unfold updateLabelsSecret at h1
          rw [updateSecret_acps] at h1
          exact ⟨Or.inl rfl, Or.inl (by simpa using h1.symm)⟩
        · rename_i sec' s₁ heq
          have h1 := congrArg (fun r => r.2.2.agentControlPlanes) heq
          dsimp only at h1
          unfold updateLabelsSecret at h1
          rw [updateSecret_acps] at h1
          split
          · rename_i e s₂ heq2
            have h2 : s₂.agentControlPlanes = s₁.agentControlPlanes := by
              split at heq2
              · have h3 := congrArg (fun r => r.2.agentControlPlanes) heq2
                dsimp only at h3
                rw [createKubeconfig_acps] at h3
                exact h3.symm
              · simp at heq2
            exact ⟨Or.inl rfl, Or.inl (by rw [h2, ← h1])⟩
          · rename_i s₂ heq2
            have h2 : s₂.agentControlPlanes = s₁.agentControlPlanes := by
              split at heq2
              · have h3 := congrArg (fun r => r.2.agentControlPlanes) heq2
                dsimp only at h3
                rw [createKubeconfig_acps] at h3
                exact h3.symm
              · cases heq2
                rfl
            have hs2 : s₂.agentControlPlanes = s.agentControlPlanes := by rw [h2, ← h1]
            split
            · rename_i e s₃ heq3
              have h4 := congrArg (fun r => r.2.agentControlPlanes) heq3
              dsimp only at h4
              rcases updateACPStatus_cases s₂ { acp with statusInitialized := true } with hc | hc
              · rw [heq3] at hc
                exact ⟨Or.inr rfl, Or.inl (by simp at hc; rw [hc, hs2])⟩
              · rw [heq3] at hc
                exact absurd hc.2.1 (by simp)
            · rename_i s₃ heq3
              rcases updateACPStatus_cases s₂ { acp with statusInitialized := true } with hc | hc
              · rw [heq3] at hc
                exact ⟨Or.inr rfl, Or.inl (by simp at hc; rw [hc, hs2])⟩
              · rw [heq3] at hc
                refine ⟨Or.inr rfl, Or.inr ⟨?_, rfl, ?_⟩⟩
                · simpa [hs2] using hc.1
                · simpa [hs2] using hc.2.2

theorem bridge_acp_cases (s : KState) (n ns : String) :
    ((agentClusterInstallReconcile s n ns).2.2).agentControlPlanes = s.agentControlPlanes ∨
    ∃ aci acp y,
      getACI s n ns = some aci ∧
      getTypedOwnerACP s aci = Except.ok acp ∧
      y.name = acp.name ∧ y.ns = acp.ns ∧
      (acp.statusInitialized = true → y.statusInitialized = true) ∧
      (acp.statusReady = true → y.statusReady = true) ∧
      (isInstalled aci = false → y.statusReady = acp.statusReady) ∧
      (findByKey AgentControlPlane.name AgentControlPlane.ns s.agentControlPlanes
        acp.name acp.ns).isSome ∧
      ((agentClusterInstallReconcile s n ns).2.2).agentControlPlanes =
        replaceByKey AgentControlPlane.name AgentControlPlane.ns s.agentControlPlanes y := by
  unfold agentClusterInstallReconcile
  split
  · exact Or.inl rfl
  · rename_i aci haci
    split
    · exact Or.inl rfl
    · rename_i acp hacp
      split
      · rename_i e x s' hinner
        have hc := (aciInner_cases s aci acp).2
        rw [hinner] at hc
        dsimp only at hc
        rcases hc with hc | hc
        · exact Or.inl hc
        · exact Or.inr ⟨aci, acp, { acp with statusInitialized := true }, haci, hacp,
            rfl, rfl, fun _ => rfl, fun h => h, fun _ => rfl, hc.1, hc.2.2⟩
      · rename_i acp' s' hinner
        have hc := (aciInner_cases s aci acp).2
        have hc1 := (aciInner_cases s aci acp).1
        rw [hinner] at hc hc1
        dsimp only at hc hc1
        split
        · rename_i hinst
          split
          · rename_i e s'' hupd
            have hu := updateACPStatus_cases s' { acp' with statusReady := true }
            rw [hupd] at hu
            dsimp only at hu
            rcases hu with hu | hu
            · rcases hc with hc | hc
              · exact Or.inl (by dsimp only; rw [hu, hc])
              · exact Or.inr ⟨aci, acp, { acp with statusInitialized := true }, haci, hacp,
                  rfl, rfl, fun _ => rfl, fun h => h, fun _ => rfl, hc.1,
                  by dsimp only; rw [hu]; exact hc.2.2⟩
            · exact absurd hu.2.1 (by simp)
          · rename_i s'' hupd
            have hu := updateACPStatus_cases s' { acp' with statusReady := true }
            rw [hupd] at hu
            dsimp only at hu
            rcases hu with hu | hu
            · rcases hc with hc | hc
              · exact Or.inl (by dsimp only; rw [hu, hc])
              · exact Or.inr ⟨aci, acp, { acp with statusInitialized := true }, haci, hacp,
                  rfl, rfl, fun _ => rfl, fun h => h, fun _ => rfl, hc.1,
                  by dsimp only; rw [hu]; exact hc.2.2⟩
            · rcases hc with hc | hc
              · rcases hc1 with hc1 | hc1 <;> subst hc1
                · exact Or.inr ⟨aci, acp', { acp' with statusReady := true }, haci, hacp,
                    rfl, rfl, fun h => h, fun _ => rfl,
                    fun hf => absurd hf (by simp [hinst]),
                    by rw [← hc]; exact hu.1,
                    by dsimp only; simp only [hu.2.2, hc]⟩
                · exact Or.inr ⟨aci, acp,
                    { acp with statusInitialized := true, statusReady := true }, haci, hacp,
                    rfl, rfl, fun _ => rfl, fun _ => rfl,
                    fun hf => absurd hf (by simp [hinst]),
                    by rw [← hc]; exact hu.1,
                    by dsimp only; simp only [hu.2.2, hc]⟩
              · have hacp' := hc.2.1
                subst hacp'
                exact Or.inr ⟨aci, acp,
                  { acp with statusInitialized := true, statusReady := true }, haci, hacp,
                  rfl, rfl, fun _ => rfl, fun _ => rfl,
                  fun hf => absurd hf (by simp [hinst]),
                  hc.1,
                  by
                    dsimp only
                    rw [hu.2.2, hc.2.2]
                    exact replaceByKey_replaceByKey rfl rfl⟩
        · rename_i hinst
          rcases hc with hc | hc
          · exact Or.inl hc
          · exact Or.inr ⟨aci, acp, { acp with statusInitialized := true }, haci, hacp,
              rfl, rfl, fun _ => rfl, fun h => h, fun _ => rfl, hc.1, hc.2.2⟩

theorem runOp_mono (s : KState) (op : ReconcileOp) (q qs : String) (a : AgentControlPlane)
    (h : getACP s q qs = some a) :
    ∃ b, getACP (runOp s op) q qs = some b ∧
      (a.statusInitialized = true → b.statusInitialized = true) ∧
      (a.statusReady = true → b.statusReady = true) := by
  cases op with
  | linker n ns =>
    refine ⟨a, ?_, fun h => h, fun h => h⟩
    unfold getACP at h ⊢
    unfold runOp
    rw [clusterDeploymentReconcile_acps]
    exact h
  | bridge n ns =>
    rcases bridge_acp_cases s n ns with hb | ⟨aci, acp, y, haci, hacp, hyn, hyns, hyi, hyr,
      hyru, hsome, hrep⟩
    · refine ⟨a, ?_, fun h => h, fun h => h⟩
      unfold getACP at h ⊢
      unfold runOp
      rw [hb]
      exact h
    · by_cases hkey : acp.name = q ∧ acp.ns = qs
      · obtain ⟨hk1, hk2⟩ := hkey
        subst hk1
        subst hk2
        have hstored := getTypedOwnerACP_stored s aci acp hacp
        have haacp : a = acp := by
          rw [h] at hstored
          exact Option.some.inj hstored
        refine ⟨y, ?_, fun hi => hyi (haacp ▸ hi), fun hr => hyr (haacp ▸ hr)⟩
        unfold getACP
        unfold runOp
        rw [hrep, ← hyn, ← hyns]
        exact findByKey_replaceByKey_self (by rw [hyn, hyns]; exact hsome)
      · refine ⟨a, ?_, fun h => h, fun h => h⟩
        unfold getACP at h ⊢
        unfold runOp
        rw [hrep, findByKey_replaceByKey_ne (by rw [hyn, hyns]; exact hkey)]
        exact h

/-- C5: the status flags `Initialized` and `Ready` of every stored
AgentControlPlane are monotonic: under any sequence of reconciles of either
controller (any object identities, any fault schedule), a flag that is true
is still true afterwards — no reconcile ever resets a flag from true to
false. -/
theorem status_flags_monotonic (s : KState) (ops : List ReconcileOp) (q qs : String)
    (a a' : AgentControlPlane) (h : getACP s q qs = some a)
    (h' : getACP (runOps s ops) q qs = some a') :
    (a.statusInitialized = true → a'.statusInitialized = true) ∧
    (a.statusReady = true → a'.statusReady = true) := by
  induction ops generalizing s a with
  | nil =>
    have hss : runOps s [] = s := rfl
    rw [hss, h] at h'
    cases Option.some.inj h'
    exact ⟨fun h => h, fun h => h⟩
  | cons op ops ih =>
    obtain ⟨b, hb, hbi, hbr⟩ := runOp_mono s op q qs a h
    have hfold : runOps s (op :: ops) = runOps (runOp s op) ops := rfl
    rw [hfold] at h'
    have hrest := ih (runOp s op) b hb h'
    exact ⟨fun hi => hrest.1 (hbi hi), fun hr => hrest.2 (hbr hr)⟩

/-- C2: credential bridging.  If the AgentClusterInstall references an
admin-kubeconfig secret whose data holds key `kubeconfig` = B, the
AgentControlPlane carries label `cluster.x-k8s.io/cluster-name` = N and is
stored, no secret named `N-kubeconfig` exists yet, and no store fault is
injected, then the credential-bridging reconcile succeeds, creates the
secret `N-kubeconfig` in the AgentControlPlane's namespace with data key
`value` = B, the cluster-name label N and a controller owner reference to
the AgentControlPlane, and persists `Status.Initialized = true`. -/
theorem credential_bridging (s : KState) (aci : AgentClusterInstall)
    (acp : AgentControlPlane) (cm : ClusterMetadata) (sec : Secret) (B N : String)
    (hfa : s.faults = [])
    (hcm : aci.spec.clusterMetadata = some cm)
    (hne : cm.adminKubeconfigSecretRefName ≠ "")
    (hsec : getSecret s cm.adminKubeconfigSecretRefName acp.ns = some sec)
    (hdata : dataGet sec.data "kubeconfig" = some B)
    (hlab : labelGet acp.labels clusterNameLabel = N)
    (hnone : getSecret s (N ++ "-kubeconfig") acp.ns = none)
    (hacp : (getACP s acp.name acp.ns).isSome) :
    (aciInnerReconcile s aci acp).1 = none ∧
    (aciInnerReconcile s aci acp).2.1 = { acp with statusInitialized := true } ∧
    getACP (aciInnerReconcile s aci acp).2.2 acp.name acp.ns =
      some { acp with statusInitialized := true } ∧
    ∃ cks, getSecret (aciInnerReconcile s aci acp).2.2 (N ++ "-kubeconfig") acp.ns = some cks ∧
      cks.name = N ++ "-kubeconfig" ∧ cks.ns = acp.ns ∧
      dataGet cks.data "value" = some B ∧
      labelGet cks.labels clusterNameLabel = N ∧
      cks.ownerRefs = [newControllerRefAlpha acp] ∧
      cks.secretType = clusterSecretType := by
  have hk : sec.name = cm.adminKubeconfigSecretRefName ∧ sec.ns = acp.ns := findByKey_key hsec
  have hhk : hasKubeconfigRef aci = true := by
    unfold hasKubeconfigRef
    rw [hcm]
    simpa using hne
  have hnK : ¬(sec.name = N ++ "-kubeconfig" ∧ sec.ns = acp.ns) := by
    rintro ⟨he1, he2⟩
    rw [← hk.1, he1] at hsec
    rw [hnone] at hsec
    exact Option.noConfusion hsec
  have hupd := updateSecret_ok s (withMergedLabels sec [(clusterNameLabel, N)]) hfa
    (by
      have hsec2 : getSecret s sec.name sec.ns = some sec := by rw [hk.1, hk.2]; exact hsec
      exact (by rw [show (withMergedLabels sec [(clusterNameLabel, N)]).name = sec.name from rfl,
        show (withMergedLabels sec [(clusterNameLabel, N)]).ns = sec.ns from rfl, hsec2]; rfl))
  have hs1none : getSecret
      { s with
        secrets :=
          replaceByKey Secret.name Secret.ns s.secrets
            (withMergedLabels sec [(clusterNameLabel, N)]) }
      (N ++ "-kubeconfig") acp.ns = none := by
    show findByKey Secret.name Secret.ns
      (replaceByKey Secret.name Secret.ns s.secrets (withMergedLabels sec [(clusterNameLabel, N)]))
      (N ++ "-kubeconfig") acp.ns = none
    have hnK' : ¬((withMergedLabels sec [(clusterNameLabel, N)]).name = N ++ "-kubeconfig" ∧
        (withMergedLabels sec [(clusterNameLabel, N)]).ns = acp.ns) := hnK
    rw [findByKey_replaceByKey_ne hnK']
    exact hnone
  have hcreate := createSecret_ok
    { s with
      secrets :=
        replaceByKey Secret.name Secret.ns s.secrets
          (withMergedLabels sec [(clusterNameLabel, N)]) }
    (generateSecretWithOwner N acp.ns B (newControllerRefAlpha acp)) hfa hs1none
  have hstat := updateACPStatus_ok
    { s with
      secrets :=
        replaceByKey Secret.name Secret.ns s.secrets
          (withMergedLabels sec [(clusterNameLabel, N)]) ++
        [generateSecretWithOwner N acp.ns B (newControllerRefAlpha acp)] }
    { acp with statusInitialized := true } hfa hacp
  have hred : aciInnerReconcile s aci acp =
      (none, { acp with statusInitialized := true },
        { s with
          secrets :=
            replaceByKey Secret.name Secret.ns s.secrets
              (withMergedLabels sec [(clusterNameLabel, N)]) ++
            [generateSecretWithOwner N acp.ns B (newControllerRefAlpha acp)],
          agentControlPlanes :=
            replaceByKey AgentControlPlane.name AgentControlPlane.ns s.agentControlPlanes
              { acp with statusInitialized := true } }) := by
    unfold aciInnerReconcile
    rw [if_neg (by rw [hhk]; simp)]
    simp only [hcm]
    unfold getACIKubeconfig
    simp only [hsec]
    unfold updateLabelsSecret
    rw [hlab]
    rw [hupd]
    unfold clusterKubeconfigSecretExists
    simp only [hs1none, Option.isSome_none, Bool.false_eq_true, not_false_eq_true, if_true]
    unfold createKubeconfig
    simp only [show (withMergedLabels sec [(clusterNameLabel, N)]).data = sec.data from rfl, hdata]
    rw [hcreate]
    dsimp only
    rw [hstat]
  rw [hred]
  refine ⟨rfl, rfl, ?_, ?_⟩
  · have hsome : (findByKey AgentControlPlane.name AgentControlPlane.ns s.agentControlPlanes
        ({ acp with statusInitialized := true } : AgentControlPlane).name
        ({ acp with statusInitialized := true } : AgentControlPlane).ns).isSome := hacp
    exact findByKey_replaceByKey_self hsome
  · refine ⟨generateSecretWithOwner N acp.ns B (newControllerRefAlpha acp),
      ?_, rfl, rfl, ?_, ?_, rfl, rfl⟩
    · show findByKey Secret.name Secret.ns
        (replaceByKey Secret.name Secret.ns s.secrets
            (withMergedLabels sec [(clusterNameLabel, N)]) ++
          [generateSecretWithOwner N acp.ns B (newControllerRefAlpha acp)])
        (N ++ "-kubeconfig") acp.ns =
        some (generateSecretWithOwner N acp.ns B (newControllerRefAlpha acp))
      rw [findByKey_append]
      rw [show findByKey Secret.name Secret.ns
        (replaceByKey Secret.name Secret.ns s.secrets
          (withMergedLabels sec [(clusterNameLabel, N)]))
        (N ++ "-kubeconfig") acp.ns = none from hs1none]
      simp [findByKey, generateSecretWithOwner, Option.orElse]
    · simp [generateSecretWithOwner, dataGet]
    · simp [generateSecretWithOwner, labelGet]

/-- Concrete AgentControlPlane for the bridging witnesses. -/
def acpEx : AgentControlPlane :=
  { name := "acp1", ns := "ns1", labels := [(clusterNameLabel, "demo")], ownerRefs := [],
    agentConfigSpec :=
      { clusterDeploymentRef := none, releaseImage := "", apiVIPs := [], ingressVIPs := [],
        sshAuthorizedKey := "", machineNetwork := [] },
    replicas := 0, statusInitialized := false, statusReady := false }

/-- Concrete admin-kubeconfig secret produced by the install service. -/
def secEx : Secret :=
  { name := "admin-kubeconfig", ns := "ns1", labels := [],
    data := [("kubeconfig", "XYZ")], ownerRefs := [], secretType := "" }

/-- Concrete AgentClusterInstall referencing `admin-kubeconfig`. -/
def aciEx : AgentClusterInstall :=
  { name := "aci1", ns := "ns1",
    ownerRefs := [⟨"controlplane.cluster.x-k8s.io/v1alpha1", "AgentControlPlane", "acp1", true⟩],
    spec :=
      { apiVIP := "", ingressVIP := "", clusterDeploymentRefName := "",
        controlPlaneAgents := 0, sshPublicKey := "", imageSetRefName := "",
        networking := ⟨[], [], []⟩, clusterMetadata := some ⟨"admin-kubeconfig"⟩ },
    statusDebugInfoState := "" }

/-- Concrete store for the credential-bridging witness. -/
def stEx : KState :=
  { clusterDeployments := [], agentControlPlanes := [acpEx], clusters := [], imageSets := [],
    agentClusterInstalls := [aciEx], secrets := [secEx], faults := [] }

/-- Witness for C2 at a concrete store. -/
theorem credential_bridging_witness :
    stEx.faults = [] ∧
    getSecret stEx "admin-kubeconfig" "ns1" = some secEx ∧
    getSecret stEx ("demo" ++ "-kubeconfig") "ns1" = none ∧
    ((aciInnerReconcile stEx aciEx acpEx).1 = none ∧
     (aciInnerReconcile stEx aciEx acpEx).2.1 = { acpEx with statusInitialized := true } ∧
     getACP (aciInnerReconcile stEx aciEx acpEx).2.2 acpEx.name acpEx.ns =
       some { acpEx with statusInitialized := true } ∧
     ∃ cks, getSecret (aciInnerReconcile stEx aciEx acpEx).2.2 ("demo" ++ "-kubeconfig")
         acpEx.ns = some cks ∧
       cks.name = "demo" ++ "-kubeconfig" ∧ cks.ns = acpEx.ns ∧
       dataGet cks.data "value" = some "XYZ" ∧
       labelGet cks.labels clusterNameLabel = "demo" ∧
       cks.ownerRefs = [newControllerRefAlpha acpEx] ∧
       cks.secretType = clusterSecretType) :=
  ⟨rfl, rfl, by decide,
    credential_bridging stEx aciEx acpEx ⟨"admin-kubeconfig"⟩ secEx "XYZ" "demo"
      rfl rfl (by decide) rfl rfl rfl (by decide) rfl⟩

/-- Witness for C5 at a concrete store and reconcile sequence. -/
theorem status_flags_monotonic_witness :
    getACP stEx "acp1" "ns1" = some acpEx ∧
    (∃ a', getACP (runOps stEx [ReconcileOp.bridge "aci1" "ns1",
        ReconcileOp.linker "cd1" "ns1"]) "acp1" "ns1" = some a' ∧
      (acpEx.statusInitialized = true → a'.statusInitialized = true) ∧
      (acpEx.statusReady = true → a'.statusReady = true)) :=
  ⟨rfl,
    ⟨{ acpEx with statusInitialized := true }, by decide,
      (status_flags_monotonic stEx [ReconcileOp.bridge "aci1" "ns1",
        ReconcileOp.linker "cd1" "ns1"] "acp1" "ns1" acpEx
        { acpEx with statusInitialized := true } rfl (by decide)).1,
      (status_flags_monotonic stEx [ReconcileOp.bridge "aci1" "ns1",
        ReconcileOp.linker "cd1" "ns1"] "acp1" "ns1" acpEx
        { acpEx with statusInitialized := true } rfl (by decide)).2⟩⟩

/-- The pre-existing stale `demo-kubeconfig` secret. -/
def staleSec : Secret :=
  { name := "demo-kubeconfig", ns := "ns1", labels := [],
    data := [("value", "OLD")], ownerRefs := [], secretType := "" }

/-- Concrete store in which `demo-kubeconfig` already exists with stale
data while the admin secret holds the current bytes `XYZ`. -/
def stStale : KState :=
  { clusterDeployments := [], agentControlPlanes := [acpEx], clusters := [], imageSets := [],
    agentClusterInstalls := [aciEx], secrets := [secEx, staleSec], faults := [] }

/-- C1 counterexample: with `demo-kubeconfig` already present holding
`OLD` and the referenced admin secret holding current bytes `XYZ`, the
credential-bridging reconcile succeeds but leaves the existing secret's
data at `OLD` — it is NOT updated to the current kubeconfig bytes, contrary
to the claim. -/
theorem c1_counterexample :
    (aciInnerReconcile stStale aciEx acpEx).1 = none ∧
    dataGet secEx.data "kubeconfig" = some "XYZ" ∧
    getSecret (aciInnerReconcile stStale aciEx acpEx).2.2 "demo-kubeconfig" "ns1" =
      some staleSec ∧
    ¬(∃ cks, getSecret (aciInnerReconcile stStale aciEx acpEx).2.2 "demo-kubeconfig" "ns1" =
        some cks ∧ dataGet cks.data "value" = some "XYZ") := by
  decide

/-- C1 amended: when a secret named `N-kubeconfig` already exists at the
time the credential-bridging reconcile runs (and it is distinct from the
referenced admin secret), the reconcile leaves that secret exactly as it
was — neither duplicated nor updated — and still completes successfully,
persisting `Status.Initialized = true`.  (The overwrite-via-update branch
of `createKubeconfig` only covers a secret that appears between the
existence check and the Create.) -/
theorem stale_kubeconfig_left_unchanged (s : KState) (aci : AgentClusterInstall)
    (acp : AgentControlPlane) (cm : ClusterMetadata) (sec old : Secret) (N : String)
    (hfa : s.faults = [])
    (hcm : aci.spec.clusterMetadata = some cm)
    (hne : cm.adminKubeconfigSecretRefName ≠ "")
    (hsec : getSecret s cm.adminKubeconfigSecretRefName acp.ns = some sec)
    (hlab : labelGet acp.labels clusterNameLabel = N)
    (hold : getSecret s (N ++ "-kubeconfig") acp.ns = some old)
    (hneq : sec.name ≠ N ++ "-kubeconfig")
    (hacp : (getACP s acp.name acp.ns).isSome) :
    (aciInnerReconcile s aci acp).1 = none ∧
    getSecret (aciInnerReconcile s aci acp).2.2 (N ++ "-kubeconfig") acp.ns = some old ∧
    getACP (aciInnerReconcile s aci acp).2.2 acp.name acp.ns =
      some { acp with statusInitialized := true } := by
  have hk : sec.name = cm.adminKubeconfigSecretRefName ∧ sec.ns = acp.ns := findByKey_key hsec
  have hhk : hasKubeconfigRef aci = true := by
    unfold hasKubeconfigRef
    rw [hcm]
    simpa using hne
  have hnK : ¬(sec.name = N ++ "-kubeconfig" ∧ sec.ns = acp.ns) := fun hc => hneq hc.1
  have hupd := updateSecret_ok s (withMergedLabels sec [(clusterNameLabel, N)]) hfa
    (by
      have hsec2 : getSecret s sec.name sec.ns = some sec := by rw [hk.1, hk.2]; exact hsec
      exact (by rw [show (withMergedLabels sec [(clusterNameLabel, N)]).name = sec.name from rfl,
        show (withMergedLabels sec [(clusterNameLabel, N)]).ns = sec.ns from rfl, hsec2]; rfl))
  have hs1old : getSecret
      { s with
        secrets :=
          replaceByKey Secret.name Secret.ns s.secrets
            (withMergedLabels sec [(clusterNameLabel, N)]) }
      (N ++ "-kubeconfig") acp.ns = some old := by
    have hnK' : ¬((withMergedLabels sec [(clusterNameLabel, N)]).name = N ++ "-kubeconfig" ∧
        (withMergedLabels sec [(clusterNameLabel, N)]).ns = acp.ns) := hnK
    show findByKey Secret.name Secret.ns
      (replaceByKey Secret.name Secret.ns s.secrets (withMergedLabels sec [(clusterNameLabel, N)]))
      (N ++ "-kubeconfig") acp.ns = some old
    rw [findByKey_replaceByKey_ne hnK']
    exact hold
  have hstat := updateACPStatus_ok
    { s with
      secrets :=
        replaceByKey Secret.name Secret.ns s.secrets
          (withMergedLabels sec [(clusterNameLabel, N)]) }
    { acp with statusInitialized := true } hfa hacp
  have hred : aciInnerReconcile s aci acp =
      (none, { acp with statusInitialized := true },
        { s with
          secrets :=
            replaceByKey Secret.name Secret.ns s.secrets
              (withMergedLabels sec [(clusterNameLabel, N)]),
          agentControlPlanes :=
            replaceByKey AgentControlPlane.name AgentControlPlane.ns s.agentControlPlanes
              { acp with statusInitialized := true } }) := by
    unfold aciInnerReconcile
    rw [if_neg (by rw [hhk]; simp)]
    simp only [hcm]
    unfold getACIKubeconfig
    simp only [hsec]
    unfold updateLabelsSecret
    rw [hlab]
    rw [hupd]
    unfold clusterKubeconfigSecretExists
    simp only [hs1old, Option.isSome_some, not_true_eq_false, if_false]
    rw [hstat]
  rw [hred]
  refine ⟨rfl, ?_, ?_⟩
  · exact hs1old
  · have hsome : (findByKey AgentControlPlane.name AgentControlPlane.ns s.agentControlPlanes
        ({ acp with statusInitialized := true } : AgentControlPlane).name
        ({ acp with statusInitialized := true } : AgentControlPlane).ns).isSome := hacp
    exact findByKey_replaceByKey_self hsome

/-- Witness for the amended C1 at a concrete store. -/
theorem stale_kubeconfig_left_unchanged_witness :
    stStale.faults = [] ∧
    getSecret stStale ("demo" ++ "-kubeconfig") "ns1" = some staleSec ∧
    ((aciInnerReconcile stStale aciEx acpEx).1 = none ∧
     getSecret (aciInnerReconcile stStale aciEx acpEx).2.2 ("demo" ++ "-kubeconfig")
       acpEx.ns = some staleSec ∧
     getACP (aciInnerReconcile stStale aciEx acpEx).2.2 acpEx.name acpEx.ns =
       some { acpEx with statusInitialized := true }) :=
  ⟨rfl, by decide,
    stale_kubeconfig_left_unchanged stStale aciEx acpEx ⟨"admin-kubeconfig"⟩ secEx staleSec
      "demo" rfl rfl (by decide) rfl rfl (by decide) (by decide) rfl⟩

/-! ### DeploymentLinker claims -/

/-- ClusterDeployment with `ClusterInstallRef` already set. -/
def cdC3 : ClusterDeployment :=
  ⟨"cd3", "ns3", some ⟨"extensions.hive.openshift.io", "v1beta1", "AgentClusterInstall", "x"⟩⟩

/-- AgentControlPlane referencing `cd3`, owned by a Cluster `c3` that does
not exist in the store. -/
def acpC3 : AgentControlPlane :=
  { name := "acp3", ns := "ns3", labels := [],
    ownerRefs := [⟨"cluster.x-k8s.io/v1beta1", "Cluster", "c3", true⟩],
    agentConfigSpec :=
      { clusterDeploymentRef := some ⟨"hive.openshift.io/v1", "ClusterDeployment", "ns3", "cd3"⟩,
        releaseImage := "", apiVIPs := ["a"], ingressVIPs := ["b"],
        sshAuthorizedKey := "", machineNetwork := [] },
    replicas := 1, statusInitialized := false, statusReady := false }

/-- Store for the C3 counterexample. -/
def stC3 : KState :=
  { clusterDeployments := [cdC3], agentControlPlanes := [acpC3], clusters := [],
    imageSets := [], agentClusterInstalls := [], secrets := [], faults := [] }

/-- C3 counterexample: `ClusterInstallRef` is already set, yet the reconcile
does not succeed — the owner-Cluster lookup (checked before the
short-circuit) fails because `c3` does not exist, and the reconcile returns
that error. -/
theorem c3_counterexample :
    cdC3.clusterInstallRef.isSome = true ∧
    (clusterDeploymentReconcile stC3 "cd3" "ns3").1 =
      some (emptyResult, some (GoErr.other "failed to get Cluster/c3")) := by
  decide

/-- C3 amended: whenever the fetched ClusterDeployment already has
`ClusterInstallRef` set, the reconcile performs no create or update — the
resulting store equals the input store — and never panics, so a second
reconcile returns exactly the same result (idempotence).  It succeeds in
every branch except when the owner-Cluster lookup (which the code runs
before the short-circuit) fails, in which case that error is returned,
still without any mutation. -/
theorem installRef_set_noop (s : KState) (n ns : String) (cd : ClusterDeployment)
    (hcd : getClusterDeployment s n ns = some cd)
    (href : cd.clusterInstallRef.isSome = true) :
    (clusterDeploymentReconcile s n ns).2 = s ∧
    (clusterDeploymentReconcile s n ns).1.isSome = true ∧
    clusterDeploymentReconcile ((clusterDeploymentReconcile s n ns).2) n ns =
      clusterDeploymentReconcile s n ns := by
  obtain ⟨r, hr⟩ := Option.isSome_iff_exists.mp href
  have hmain : (clusterDeploymentReconcile s n ns).2 = s ∧
      (clusterDeploymentReconcile s n ns).1.isSome = true := by
    unfold clusterDeploymentReconcile
    simp only [hcd]
    split
    · exact ⟨rfl, rfl⟩
    · unfold ensureAgentClusterInstall
      split
      · exact ⟨rfl, rfl⟩
      · exact ⟨rfl, rfl⟩
      · simp only [hr]
        exact ⟨by simp, by simp⟩
  exact ⟨hmain.1, hmain.2, by rw [hmain.1]⟩

/-- Witness for the amended C3 at a concrete store. -/
theorem installRef_set_noop_witness :
    getClusterDeployment stC3 "cd3" "ns3" = some cdC3 ∧
    cdC3.clusterInstallRef.isSome = true ∧
    ((clusterDeploymentReconcile stC3 "cd3" "ns3").2 = stC3 ∧
     (clusterDeploymentReconcile stC3 "cd3" "ns3").1.isSome = true ∧
     clusterDeploymentReconcile ((clusterDeploymentReconcile stC3 "cd3" "ns3").2) "cd3" "ns3" =
       clusterDeploymentReconcile stC3 "cd3" "ns3") :=
  ⟨by decide, by decide, installRef_set_noop stC3 "cd3" "ns3" cdC3 (by decide) (by decide)⟩

/-- ClusterDeployment without `ClusterInstallRef`, for the C4 counterexample. -/
def cdC4 : ClusterDeployment := ⟨"cd4", "ns4", none⟩

/-- AgentControlPlane referencing `cd4`, owned by a Cluster `c4` that does
not exist in the store. -/
def acpC4 : AgentControlPlane :=
  { name := "acp4", ns := "ns4", labels := [],
    ownerRefs := [⟨"cluster.x-k8s.io/v1beta1", "Cluster", "c4", true⟩],
    agentConfigSpec :=
      { clusterDeploymentRef := some ⟨"hive.openshift.io/v1", "ClusterDeployment", "ns4", "cd4"⟩,
        releaseImage := "", apiVIPs := ["a"], ingressVIPs := ["b"],
        sshAuthorizedKey := "", machineNetwork := [] },
    replicas := 1, statusInitialized := false, statusReady := false }

/-- Store for the C4 counterexample. -/
def stC4 : KState :=
  { clusterDeployments := [cdC4], agentControlPlanes := [acpC4], clusters := [],
    imageSets := [], agentClusterInstalls := [], secrets := [], faults := [] }

/-- C4 counterexample: the AgentControlPlane's owning-Cluster reference is
present but not resolvable (Cluster `c4` does not exist), and the reconcile
returns an error with `Requeue = false` and `RequeueAfter = 0` — not the
claimed non-error requeue of 10 time units. -/
theorem c4_counterexample :
    getOwnerCluster stC4 acpC4 = .error (GoErr.other "failed to get Cluster/c4") ∧
    (clusterDeploymentReconcile stC4 "cd4" "ns4").1 =
      some (⟨false, 0⟩, some (GoErr.other "failed to get Cluster/c4")) := by
  decide

/-- C4 amended: when a referencing AgentControlPlane carries no
owner reference of kind `Cluster` in the `cluster.x-k8s.io` group — so the
owner-Cluster lookup returns no Cluster without error — the reconcile
performs no create or update and returns a non-error requeue result with a
delay of exactly 10 time units.  (A dangling Cluster owner reference
instead makes the lookup fail and the reconcile returns that error, also
with no mutation.) -/
theorem requeue_when_cluster_absent (s : KState) (n ns : String) (cd : ClusterDeployment)
    (acp : AgentControlPlane)
    (hcd : getClusterDeployment s n ns = some cd)
    (hfind : (s.agentControlPlanes.filter fun a => a.ns == cd.ns).find? (fun acp =>
      isAgentControlPlaneReferencingClusterDeployment acp cd) = some acp)
    (hown : getOwnerCluster s acp = .ok none) :
    clusterDeploymentReconcile s n ns = (some (⟨true, 10⟩, none), s) := by
  unfold clusterDeploymentReconcile
  simp only [hcd, hfind]
  unfold ensureAgentClusterInstall
  simp only [hown]

/-- AgentControlPlane referencing `cd4` with no owner references at all. -/
def acpC4w : AgentControlPlane :=
  { acpC4 with name := "acp4w", ownerRefs := [] }

/-- Store for the C4 witness. -/
def stC4w : KState :=
  { clusterDeployments := [cdC4], agentControlPlanes := [acpC4w], clusters := [],
    imageSets := [], agentClusterInstalls := [], secrets := [], faults := [] }

/-- Witness for the amended C4 at a concrete store. -/
theorem requeue_when_cluster_absent_witness :
    getClusterDeployment stC4w "cd4" "ns4" = some cdC4 ∧
    getOwnerCluster stC4w acpC4w = .ok none ∧
    clusterDeploymentReconcile stC4w "cd4" "ns4" = (some (⟨true, 10⟩, none), stC4w) :=
  ⟨by decide, by decide,
    requeue_when_cluster_absent stC4w "cd4" "ns4" cdC4 acpC4w (by decide) (by decide) (by decide)⟩

theorem createImageSet_nofault (s : KState) (x : ClusterImageSet) (hf : s.faults = []) :
    ((createImageSet s x).1 = none ∨ (createImageSet s x).1 = some .alreadyExists) ∧
    (createImageSet s x).2.agentClusterInstalls = s.agentClusterInstalls ∧
    (createImageSet s x).2.clusterDeployments = s.clusterDeployments ∧
    (createImageSet s x).2.faults = [] := by
  unfold createImageSet
  rw [hf]
  dsimp only
  split <;> simp [hf]

theorem updateClusterDeployment_acis (s : KState) (x : ClusterDeployment) :
    ((updateClusterDeployment s x).2).agentClusterInstalls = s.agentClusterInstalls := by
  unfold updateClusterDeployment
  split
  · simp
  · split <;> simp

/-- After the owner gate, the `ClusterInstallRef` check and the
ClusterImageSet create (AlreadyExists swallowed), the reconcile continues
with `ensureACIRest` in a state with the same AgentClusterInstalls,
ClusterDeployments and empty fault schedule. -/
theorem ensure_reaches_rest (s : KState) (cd : ClusterDeployment) (acp : AgentControlPlane)
    (cluster : Cluster) (hfa : s.faults = [])
    (hown : getOwnerCluster s acp = .ok (some cluster))
    (href : cd.clusterInstallRef = none) :
    ∃ s₁, ensureAgentClusterInstall s cd acp =
        ensureACIRest s₁ cd acp cluster (mkImageSet cd acp).name ∧
      s₁.agentClusterInstalls = s.agentClusterInstalls ∧
      s₁.clusterDeployments = s.clusterDeployments ∧
      s₁.faults = [] := by
  unfold ensureAgentClusterInstall
  simp only [hown, href]
  rcases heq : createImageSet s (mkImageSet cd acp) with ⟨e1, s₁⟩
  have hni := createImageSet_nofault s (mkImageSet cd acp) hfa
  rw [heq] at hni
  dsimp only at hni
  refine ⟨s₁, ?_, hni.2.1, hni.2.2.1, hni.2.2.2⟩
  rcases hni.1 with h1 | h1 <;> subst h1
  · rfl
  · simp

theorem ensureRest_tail_state (a : KState) (b : ClusterDeployment) :
    (match updateClusterDeployment a b with
      | (e, s₃) => ((some (emptyResult, e) : Option (CtrlResult × Option GoErr)), s₃)).2 =
    (updateClusterDeployment a b).2 := by
  rcases hu : updateClusterDeployment a b with ⟨e, s₃⟩
  rfl

/-- C6: when the install-spec creation path is reached, the created
AgentClusterInstall's networking is derived as: each pod CIDR block of the
owning Cluster becomes one cluster-network entry with that CIDR and
HostPrefix 23, the Cluster's service CIDR blocks pass through unchanged,
and the machine network passes through from the AgentControlPlane's
configuration. -/
theorem network_derivation (s : KState) (cd : ClusterDeployment) (acp : AgentControlPlane)
    (cluster : Cluster) (cn : ClusterNetworkSpec) (pods svcs : NetworkRanges)
    (av iv : String) (avt ivt : List String)
    (hfa : s.faults = [])
    (hown : getOwnerCluster s acp = .ok (some cluster))
    (href : cd.clusterInstallRef = none)
    (hnet : cluster.clusterNetwork = some cn)
    (hpods : cn.pods = some pods)
    (hsvcs : cn.services = some svcs)
    (hvip : acp.agentConfigSpec.apiVIPs = av :: avt)
    (hing : acp.agentConfigSpec.ingressVIPs = iv :: ivt)
    (hnoaci : getACI s cd.name cd.ns = none) :
    ∃ aciNew, getACI (ensureAgentClusterInstall s cd acp).2 cd.name cd.ns = some aciNew ∧
      aciNew.spec.networking =
        { clusterNetwork := pods.cidrBlocks.map fun cidrBlock => ⟨cidrBlock, 23⟩
          serviceNetwork := svcs.cidrBlocks
          machineNetwork := acp.agentConfigSpec.machineNetwork } := by
  obtain ⟨s₁, hrw, hacis, hcds, hfl⟩ := ensure_reaches_rest s cd acp cluster hfa hown href
  rw [hrw]
  unfold ensureACIRest
  simp only [hvip, hing]
  have hok := createACI_ok s₁ (mkAgentClusterInstall cd acp cluster (mkImageSet cd acp).name av iv)
    hfl (by unfold getACI at hnoaci ⊢; rw [hacis]; exact hnoaci)
  rw [hok]
  rw [ensureRest_tail_state]
  refine ⟨mkAgentClusterInstall cd acp cluster (mkImageSet cd acp).name av iv, ?_, ?_⟩
  · unfold getACI
    rw [updateClusterDeployment_acis]
    dsimp only
    rw [findByKey_append]
    unfold getACI at hnoaci
    rw [show findByKey AgentClusterInstall.name AgentClusterInstall.ns s₁.agentClusterInstalls
      cd.name cd.ns = none from by rw [hacis]; exact hnoaci]
    simp [findByKey, mkAgentClusterInstall, Option.orElse]
  · simp [mkAgentClusterInstall, deriveClusterNetwork, deriveServiceNetwork, hnet, hpods, hsvcs]

/-- ClusterDeployment for the linker happy-path witnesses. -/
def cdC6 : ClusterDeployment := ⟨"cd6", "ns6", none⟩

/-- AgentControlPlane for the linker happy-path witnesses. -/
def acpC6 : AgentControlPlane :=
  { name := "acp6", ns := "ns6", labels := [],
    ownerRefs := [⟨"cluster.x-k8s.io/v1beta1", "Cluster", "c6", true⟩],
    agentConfigSpec :=
      { clusterDeploymentRef := some ⟨"hive.openshift.io/v1", "ClusterDeployment", "ns6", "cd6"⟩,
        releaseImage := "img", apiVIPs := ["1.2.3.4"], ingressVIPs := ["5.6.7.8"],
        sshAuthorizedKey := "ssh", machineNetwork := [⟨"192.168.0.0/24"⟩] },
    replicas := 3, statusInitialized := false, statusReady := false }

/-- Owning Cluster with the spec's example CIDR blocks. -/
def clC6 : Cluster :=
  ⟨"c6", "ns6", some ⟨some ⟨["10.0.0.0/16"]⟩, some ⟨["10.96.0.0/12"]⟩⟩⟩

/-- Store for the linker happy-path witnesses. -/
def stC6 : KState :=
  { clusterDeployments := [cdC6], agentControlPlanes := [acpC6], clusters := [clC6],
    imageSets := [], agentClusterInstalls := [], secrets := [], faults := [] }

/-- Witness for C6 at the spec's example CIDR blocks. -/
theorem network_derivation_witness :
    getOwnerCluster stC6 acpC6 = .ok (some clC6) ∧
    cdC6.clusterInstallRef = none ∧
    (∃ aciNew, getACI (ensureAgentClusterInstall stC6 cdC6 acpC6).2 cdC6.name cdC6.ns =
        some aciNew ∧
      aciNew.spec.networking =
        { clusterNetwork := [⟨"10.0.0.0/16", 23⟩]
          serviceNetwork := ["10.96.0.0/12"]
          machineNetwork := [⟨"192.168.0.0/24"⟩] }) :=
  ⟨by decide, rfl,
    network_derivation stC6 cdC6 acpC6 clC6 ⟨some ⟨["10.0.0.0/16"]⟩, some ⟨["10.96.0.0/12"]⟩⟩
      ⟨["10.0.0.0/16"]⟩ ⟨["10.96.0.0/12"]⟩ "1.2.3.4" "5.6.7.8" [] []
      rfl (by decide) rfl rfl rfl rfl rfl rfl rfl⟩

/-- C7: every creation error for the AgentClusterInstall is returned by the
reconcile.  Part one: a deterministic AlreadyExists (an AgentClusterInstall
with that name already stored) is returned as the error — not swallowed —
and `ClusterInstallRef` is not set.  Part two: an injected transient store
error at the AgentClusterInstall create (scheduled behind an AlreadyExists
consumed and swallowed by the ClusterImageSet create) is returned, and
nothing is created or updated. -/
theorem aci_create_error_reported :
    (∀ (s : KState) (cd : ClusterDeployment) (acp : AgentControlPlane) (cluster : Cluster)
        (av iv : String) (avt ivt : List String),
      s.faults = [] →
      getOwnerCluster s acp = .ok (some cluster) →
      cd.clusterInstallRef = none →
      acp.agentConfigSpec.apiVIPs = av :: avt →
      acp.agentConfigSpec.ingressVIPs = iv :: ivt →
      (getACI s cd.name cd.ns).isSome →
      (ensureAgentClusterInstall s cd acp).1 = some (emptyResult, some GoErr.alreadyExists) ∧
      (ensureAgentClusterInstall s cd acp).2.clusterDeployments = s.clusterDeployments ∧
      (ensureAgentClusterInstall s cd acp).2.agentClusterInstalls = s.agentClusterInstalls) ∧
    (∀ (s : KState) (cd : ClusterDeployment) (acp : AgentControlPlane) (cluster : Cluster)
        (e : GoErr) (av iv : String) (avt ivt : List String),
      s.faults = [GoErr.alreadyExists, e] →
      getOwnerCluster s acp = .ok (some cluster) →
      cd.clusterInstallRef = none →
      acp.agentConfigSpec.apiVIPs = av :: avt →
      acp.agentConfigSpec.ingressVIPs = iv :: ivt →
      (ensureAgentClusterInstall s cd acp).1 = some (emptyResult, some e) ∧
      (ensureAgentClusterInstall s cd acp).2.agentClusterInstalls = s.agentClusterInstalls ∧
      (ensureAgentClusterInstall s cd acp).2.imageSets = s.imageSets ∧
      (ensureAgentClusterInstall s cd acp).2.clusterDeployments = s.clusterDeployments) := by
  constructor
  · intro s cd acp cluster av iv avt ivt hfa hown href hvip hing hex
    obtain ⟨s₁, hrw, hacis, hcds, hfl⟩ := ensure_reaches_rest s cd acp cluster hfa hown href
    rw [hrw]
    unfold ensureACIRest
    simp only [hvip, hing]
    have hae := createACI_exists s₁
      (mkAgentClusterInstall cd acp cluster (mkImageSet cd acp).name av iv) hfl
      (by unfold getACI at hex ⊢; rw [hacis]; exact hex)
    rw [hae]
    exact ⟨rfl, hcds, hacis⟩
  · intro s cd acp cluster e av iv avt ivt hfl hown href hvip hing
    have hstep : ensureAgentClusterInstall s cd acp =
        ensureACIRest { s with faults := [e] } cd acp cluster (mkImageSet cd acp).name := by
      unfold ensureAgentClusterInstall
      simp only [hown, href]
      rw [show createImageSet s (mkImageSet cd acp) =
        (some GoErr.alreadyExists, { s with faults := [e] }) from by
          unfold createImageSet; rw [hfl]]
      simp
    rw [hstep]
    unfold ensureACIRest
    simp only [hvip, hing]
    have hcr : createACI { s with faults := [e] }
        (mkAgentClusterInstall cd acp cluster (mkImageSet cd acp).name av iv) =
        (some e, { s with faults := [] }) := rfl
    rw [hcr]
    exact ⟨rfl, rfl, rfl, rfl⟩

/-- AgentClusterInstall already stored under the ClusterDeployment's name. -/
def aciC7 : AgentClusterInstall :=
  { name := "cd6", ns := "ns6", ownerRefs := [],
    spec :=
      { apiVIP := "", ingressVIP := "", clusterDeploymentRefName := "",
        controlPlaneAgents := 0, sshPublicKey := "", imageSetRefName := "",
        networking := ⟨[], [], []⟩, clusterMetadata := none },
    statusDebugInfoState := "" }

/-- Store with a pre-existing AgentClusterInstall (C7 part one). -/
def stC7a : KState := { stC6 with agentClusterInstalls := [aciC7] }

/-- Store with an injected fault schedule (C7 part two). -/
def stC7b : KState := { stC6 with faults := [GoErr.alreadyExists, GoErr.other "boom"] }

/-- Witness for C7 at concrete stores. -/
theorem aci_create_error_reported_witness :
    (stC7a.faults = [] ∧ (getACI stC7a "cd6" "ns6").isSome = true ∧
      ((ensureAgentClusterInstall stC7a cdC6 acpC6).1 =
        some (emptyResult, some GoErr.alreadyExists) ∧
      (ensureAgentClusterInstall stC7a cdC6 acpC6).2.clusterDeployments =
        stC7a.clusterDeployments ∧
      (ensureAgentClusterInstall stC7a cdC6 acpC6).2.agentClusterInstalls =
        stC7a.agentClusterInstalls)) ∧
    (stC7b.faults = [GoErr.alreadyExists, GoErr.other "boom"] ∧
      ((ensureAgentClusterInstall stC7b cdC6 acpC6).1 =
        some (emptyResult, some (GoErr.other "boom")) ∧
      (ensureAgentClusterInstall stC7b cdC6 acpC6).2.agentClusterInstalls =
        stC7b.agentClusterInstalls ∧
      (ensureAgentClusterInstall stC7b cdC6 acpC6).2.imageSets = stC7b.imageSets ∧
      (ensureAgentClusterInstall stC7b cdC6 acpC6).2.clusterDeployments =
        stC7b.clusterDeployments)) :=
  ⟨⟨rfl, by decide,
    aci_create_error_reported.1 stC7a cdC6 acpC6 clC6 "1.2.3.4" "5.6.7.8" [] []
      rfl (by decide) rfl rfl rfl (by decide)⟩,
   ⟨rfl,
    aci_create_error_reported.2 stC7b cdC6 acpC6 clC6 (GoErr.other "boom")
      "1.2.3.4" "5.6.7.8" [] [] rfl (by decide) rfl rfl rfl⟩⟩

/-- C8: for the ClusterImageSet creation, an AlreadyExists error is treated
as success and reconciliation continues (the AgentClusterInstall is created
and `ClusterInstallRef` set), while any other creation error makes the
reconcile return that error with nothing created or updated. -/
theorem imageset_already_exists_tolerated :
    (∀ (s : KState) (cd : ClusterDeployment) (acp : AgentControlPlane) (cluster : Cluster)
        (av iv : String) (avt ivt : List String),
      s.faults = [] →
      getOwnerCluster s acp = .ok (some cluster) →
      cd.clusterInstallRef = none →
      (findByKey ClusterImageSet.name ClusterImageSet.ns s.imageSets cd.name cd.ns).isSome →
      acp.agentConfigSpec.apiVIPs = av :: avt →
      acp.agentConfigSpec.ingressVIPs = iv :: ivt →
      getACI s cd.name cd.ns = none →
      (getClusterDeployment s cd.name cd.ns).isSome →
      (ensureAgentClusterInstall s cd acp).1 = some (emptyResult, none) ∧
      getACI (ensureAgentClusterInstall s cd acp).2 cd.name cd.ns =
        some (mkAgentClusterInstall cd acp cluster (mkImageSet cd acp).name av iv) ∧
      getClusterDeployment (ensureAgentClusterInstall s cd acp).2 cd.name cd.ns =
        some { cd with
          clusterInstallRef :=
            some ⟨"extensions.hive.openshift.io", "v1beta1", "AgentClusterInstall", cd.name⟩ }) ∧
    (∀ (s : KState) (cd : ClusterDeployment) (acp : AgentControlPlane) (cluster : Cluster)
        (e : GoErr),
      s.faults = [e] →
      e ≠ GoErr.alreadyExists →
      getOwnerCluster s acp = .ok (some cluster) →
      cd.clusterInstallRef = none →
      (ensureAgentClusterInstall s cd acp).1 = some (emptyResult, some e) ∧
      (ensureAgentClusterInstall s cd acp).2 = { s with faults := [] }) := by
  constructor
  · intro s cd acp cluster av iv avt ivt hfa hown href himg hvip hing hnoaci hcd
    have hexi := createImageSet_exists s (mkImageSet cd acp) hfa himg
    have hstep : ensureAgentClusterInstall s cd acp =
        ensureACIRest s cd acp cluster (mkImageSet cd acp).name := by
      unfold ensureAgentClusterInstall
      simp only [hown, href]
      rw [hexi]
      simp
    rw [hstep]
    unfold ensureACIRest
    simp only [hvip, hing]
    have hok := createACI_ok s
      (mkAgentClusterInstall cd acp cluster (mkImageSet cd acp).name av iv) hfa hnoaci
    rw [hok]
    dsimp only
    have hupd := updateClusterDeployment_ok
      { s with agentClusterInstalls := s.agentClusterInstalls ++
          [mkAgentClusterInstall cd acp cluster (mkImageSet cd acp).name av iv] }
      { cd with
        clusterInstallRef :=
          some ⟨"extensions.hive.openshift.io", "v1beta1", "AgentClusterInstall",
            (mkAgentClusterInstall cd acp cluster (mkImageSet cd acp).name av iv).name⟩ }
      hfa hcd
    rw [hupd]
    refine ⟨rfl, ?_, ?_⟩
    · unfold getACI at hnoaci ⊢
      dsimp only
      rw [findByKey_append, hnoaci]
      simp [findByKey, mkAgentClusterInstall, Option.orElse]
    · unfold getClusterDeployment
      dsimp only
      have hsome : (findByKey ClusterDeployment.name ClusterDeployment.ns s.clusterDeployments
          ({ cd with
            clusterInstallRef :=
              some ⟨"extensions.hive.openshift.io", "v1beta1", "AgentClusterInstall",
                (mkAgentClusterInstall cd acp cluster (mkImageSet cd acp).name av
                  iv).name⟩ } : ClusterDeployment).name
          ({ cd with
            clusterInstallRef :=
              some ⟨"extensions.hive.openshift.io", "v1beta1", "AgentClusterInstall",
                (mkAgentClusterInstall cd acp cluster (mkImageSet cd acp).name av
                  iv).name⟩ } : ClusterDeployment).ns).isSome := hcd
      exact findByKey_replaceByKey_self hsome
  · intro s cd acp cluster e hfl hneq hown href
    have hstep : ensureAgentClusterInstall s cd acp =
        (some (emptyResult, some e), { s with faults := [] }) := by
      unfold ensureAgentClusterInstall
      simp only [hown, href]
      rw [show createImageSet s (mkImageSet cd acp) = (some e, { s with faults := [] }) from by
        unfold createImageSet; rw [hfl]]
      simp [hneq]
    rw [hstep]
    exact ⟨rfl, rfl⟩

/-- Store with a pre-existing ClusterImageSet named after the
ClusterDeployment (C8 part one). -/
def stC8a : KState := { stC6 with imageSets := [⟨"cd6", "ns6", "old"⟩] }

/-- Store with an injected non-AlreadyExists fault at the ClusterImageSet
create (C8 part two). -/
def stC8b : KState := { stC6 with faults := [GoErr.other "boom"] }

/-- Witness for C8 at concrete stores. -/
theorem imageset_already_exists_tolerated_witness :
    (stC8a.faults = [] ∧
      (findByKey ClusterImageSet.name ClusterImageSet.ns stC8a.imageSets "cd6" "ns6").isSome ∧
      ((ensureAgentClusterInstall stC8a cdC6 acpC6).1 = some (emptyResult, none) ∧
        getACI (ensureAgentClusterInstall stC8a cdC6 acpC6).2 cdC6.name cdC6.ns =
          some (mkAgentClusterInstall cdC6 acpC6 clC6 (mkImageSet cdC6 acpC6).name
            "1.2.3.4" "5.6.7.8") ∧
        getClusterDeployment (ensureAgentClusterInstall stC8a cdC6 acpC6).2 cdC6.name cdC6.ns =
          some { cdC6 with
            clusterInstallRef :=
              some ⟨"extensions.hive.openshift.io", "v1beta1", "AgentClusterInstall",
                cdC6.name⟩ })) ∧
    (stC8b.faults = [GoErr.other "boom"] ∧
      ((ensureAgentClusterInstall stC8b cdC6 acpC6).1 =
        some (emptyResult, some (GoErr.other "boom")) ∧
      (ensureAgentClusterInstall stC8b cdC6 acpC6).2 = { stC8b with faults := [] })) :=
  ⟨⟨rfl, by decide,
    imageset_already_exists_tolerated.1 stC8a cdC6 acpC6 clC6 "1.2.3.4" "5.6.7.8" [] []
      rfl (by decide) rfl (by decide) rfl rfl rfl (by decide)⟩,
   ⟨rfl,
    imageset_already_exists_tolerated.2 stC8b cdC6 acpC6 clC6 (GoErr.other "boom")
      rfl (by decide) (by decide) rfl⟩⟩

/-- C10: when the install-spec creation path is reached, only the first
API-VIP and the first ingress-VIP are used (further entries discarded); the
indexing is unguarded, so the reconcile is defined (no panic) when both VIP
lists are non-empty, and panics (result `none`) when either list is empty
at that path. -/
theorem vip_first_entries_and_panic :
    (∀ (s : KState) (cd : ClusterDeployment) (acp : AgentControlPlane) (cluster : Cluster)
        (av iv : String) (avt ivt : List String),
      s.faults = [] →
      getOwnerCluster s acp = .ok (some cluster) →
      cd.clusterInstallRef = none →
      acp.agentConfigSpec.apiVIPs = av :: avt →
      acp.agentConfigSpec.ingressVIPs = iv :: ivt →
      getACI s cd.name cd.ns = none →
      (ensureAgentClusterInstall s cd acp).1.isSome = true ∧
      ∃ aciNew, getACI (ensureAgentClusterInstall s cd acp).2 cd.name cd.ns = some aciNew ∧
        aciNew.spec.apiVIP = av ∧ aciNew.spec.ingressVIP = iv) ∧
    (∀ (s : KState) (cd : ClusterDeployment) (acp : AgentControlPlane) (cluster : Cluster),
      s.faults = [] →
      getOwnerCluster s acp = .ok (some cluster) →
      cd.clusterInstallRef = none →
      (acp.agentConfigSpec.apiVIPs = [] ∨ acp.agentConfigSpec.ingressVIPs = []) →
      (ensureAgentClusterInstall s cd acp).1 = none) := by
  constructor
  · intro s cd acp cluster av iv avt ivt hfa hown href hvip hing hnoaci
    obtain ⟨s₁, hrw, hacis, hcds, hfl⟩ := ensure_reaches_rest s cd acp cluster hfa hown href
    rw [hrw]
    unfold ensureACIRest
    simp only [hvip, hing]
    have hok := createACI_ok s₁
      (mkAgentClusterInstall cd acp cluster (mkImageSet cd acp).name av iv) hfl
      (by unfold getACI at hnoaci ⊢; rw [hacis]; exact hnoaci)
    rw [hok]
    dsimp only
    refine ⟨rfl, mkAgentClusterInstall cd acp cluster (mkImageSet cd acp).name av iv,
      ?_, rfl, rfl⟩
    unfold getACI
    rw [updateClusterDeployment_acis]
    dsimp only
    rw [findByKey_append]
    unfold getACI at hnoaci
    rw [show findByKey AgentClusterInstall.name AgentClusterInstall.ns s₁.agentClusterInstalls
      cd.name cd.ns = none from by rw [hacis]; exact hnoaci]
    simp [findByKey, mkAgentClusterInstall, Option.orElse]
  · intro s cd acp cluster hfa hown href hempty
    obtain ⟨s₁, hrw, hacis, hcds, hfl⟩ := ensure_reaches_rest s cd acp cluster hfa hown href
    rw [hrw]
    unfold ensureACIRest
    rcases hempty with ha | hb
    · simp [ha]
    · rcases hA : acp.agentConfigSpec.apiVIPs with _ | ⟨a0, at0⟩
      · simp [hA]
      · simp [hA, hb]

/-- AgentControlPlane with empty VIP lists (C10 panic part). -/
def acpC10 : AgentControlPlane :=
  { acpC6 with
    agentConfigSpec := { acpC6.agentConfigSpec with apiVIPs := [], ingressVIPs := [] } }

/-- Store for the C10 panic witness. -/
def stC10 : KState :=
  { clusterDeployments := [cdC6], agentControlPlanes := [acpC10], clusters := [clC6],
    imageSets := [], agentClusterInstalls := [], secrets := [], faults := [] }

/-- Witness for C10 at concrete stores. -/
theorem vip_first_entries_and_panic_witness :
    (stC6.faults = [] ∧ acpC6.agentConfigSpec.apiVIPs = "1.2.3.4" :: [] ∧
      ((ensureAgentClusterInstall stC6 cdC6 acpC6).1.isSome = true ∧
        ∃ aciNew, getACI (ensureAgentClusterInstall stC6 cdC6 acpC6).2 cdC6.name cdC6.ns =
            some aciNew ∧
          aciNew.spec.apiVIP = "1.2.3.4" ∧ aciNew.spec.ingressVIP = "5.6.7.8")) ∧
    (acpC10.agentConfigSpec.apiVIPs = [] ∧
      (ensureAgentClusterInstall stC10 cdC6 acpC10).1 = none) :=
  ⟨⟨rfl, rfl,
    vip_first_entries_and_panic.1 stC6 cdC6 acpC6 clC6 "1.2.3.4" "5.6.7.8" [] []
      rfl (by decide) rfl rfl rfl rfl⟩,
   ⟨rfl,
    vip_first_entries_and_panic.2 stC10 cdC6 acpC10 clC6 rfl (by decide) rfl (Or.inl rfl)⟩⟩

/-- C9: the InstallStatusBridge sets `Status.Ready` to true exactly for the
`adding-hosts` (post-provisioning) reported state.  Part one: when the
AgentClusterInstall's reported state is `adding-hosts` and the reconcile
reaches the readiness step (owner resolved, credential bridging succeeded,
status update not faulted), the reconcile persists `Ready = true`.  Part
two: when the reported state differs from `adding-hosts`, a reconcile
leaves the `Ready` flag of every stored AgentControlPlane unchanged. -/
theorem ready_iff_adding_hosts :
    (∀ (s : KState) (n ns : String) (aci : AgentClusterInstall)
        (acp acp' : AgentControlPlane) (s₁ : KState),
      getACI s n ns = some aci →
      getTypedOwnerACP s aci = .ok acp →
      aciInnerReconcile s aci acp = (none, acp', s₁) →
      isInstalled aci = true →
      s₁.faults = [] →
      (getACP s₁ acp'.name acp'.ns).isSome →
      (agentClusterInstallReconcile s n ns).2.1 = none ∧
      getACP (agentClusterInstallReconcile s n ns).2.2 acp'.name acp'.ns =
        some { acp' with statusReady := true }) ∧
    (∀ (s : KState) (n ns : String) (aci : AgentClusterInstall),
      getACI s n ns = some aci →
      isInstalled aci = false →
      ∀ (q qs : String) (a a₁ : AgentControlPlane),
        getACP s q qs = some a →
        getACP (agentClusterInstallReconcile s n ns).2.2 q qs = some a₁ →
        a₁.statusReady = a.statusReady) := by
  constructor
  · intro s n ns aci acp acp' s₁ haci hown hinner hinst hfl hsome
    have hupd := updateACPStatus_ok s₁ { acp' with statusReady := true } hfl hsome
    unfold agentClusterInstallReconcile
    simp only [haci, hown, hinner, hinst, if_true, hupd]
    constructor
    · trivial
    · have hsome' : (findByKey AgentControlPlane.name AgentControlPlane.ns s₁.agentControlPlanes
          ({ acp' with statusReady := true } : AgentControlPlane).name
          ({ acp' with statusReady := true } : AgentControlPlane).ns).isSome := hsome
      exact findByKey_replaceByKey_self hsome'
  · intro s n ns aci haci hinst q qs a a₁ ha ha₁
    rcases bridge_acp_cases s n ns with hb | ⟨aci', acp, y, haci', hacp, hyn, hyns, hyi, hyr,
      hyru, hsome, hrep⟩
    · unfold getACP at ha ha₁
      rw [hb, ha] at ha₁
      cases Option.some.inj ha₁
      rfl
    · have haa : aci' = aci := by
        rw [haci] at haci'
        exact (Option.some.inj haci').symm
      subst haa
      have hyready : y.statusReady = acp.statusReady := hyru hinst
      by_cases hkey : acp.name = q ∧ acp.ns = qs
      · obtain ⟨hk1, hk2⟩ := hkey
        subst hk1
        subst hk2
        have hstored := getTypedOwnerACP_stored s aci' acp hacp
        have haacp : a = acp := by
          rw [ha] at hstored
          exact Option.some.inj hstored
        have hy : getACP (agentClusterInstallReconcile s n ns).2.2 acp.name acp.ns = some y := by
          unfold getACP
          rw [hrep, ← hyn, ← hyns]
          exact findByKey_replaceByKey_self (by rw [hyn, hyns]; exact hsome)
        rw [hy] at ha₁
        cases Option.some.inj ha₁
        rw [hyready, haacp]
      · unfold getACP at ha ha₁
        rw [hrep, findByKey_replaceByKey_ne (by rw [hyn, hyns]; exact hkey), ha] at ha₁
        cases Option.some.inj ha₁
        rfl

/-- AgentClusterInstall in the `adding-hosts` state and without a
kubeconfig reference yet. -/
def aci9 : AgentClusterInstall :=
  { name := "aci9", ns := "ns1",
    ownerRefs := [⟨"controlplane.cluster.x-k8s.io/v1alpha1", "AgentControlPlane", "acp1", true⟩],
    spec :=
      { apiVIP := "", ingressVIP := "", clusterDeploymentRefName := "",
        controlPlaneAgents := 0, sshPublicKey := "", imageSetRefName := "",
        networking := ⟨[], [], []⟩, clusterMetadata := none },
    statusDebugInfoState := "adding-hosts" }

/-- Store for the C9 positive witness. -/
def stC9 : KState :=
  { clusterDeployments := [], agentControlPlanes := [acpEx], clusters := [], imageSets := [],
    agentClusterInstalls := [aci9], secrets := [], faults := [] }

/-- Witness for C9 at concrete stores: part one at an `adding-hosts`
install, part two at an install whose reported state is empty. -/
theorem ready_iff_adding_hosts_witness :
    (isInstalled aci9 = true ∧
      ((agentClusterInstallReconcile stC9 "aci9" "ns1").2.1 = none ∧
       getACP (agentClusterInstallReconcile stC9 "aci9" "ns1").2.2 acpEx.name acpEx.ns =
         some { acpEx with statusReady := true })) ∧
    (isInstalled aciEx = false ∧
      (∀ (a a₁ : AgentControlPlane),
        getACP stEx "acp1" "ns1" = some a →
        getACP (agentClusterInstallReconcile stEx "aci1" "ns1").2.2 "acp1" "ns1" = some a₁ →
        a₁.statusReady = a.statusReady) ∧
      getACP (agentClusterInstallReconcile stEx "aci1" "ns1").2.2 "acp1" "ns1" =
        some { acpEx with statusInitialized := true } ∧
      ({ acpEx with statusInitialized := true } : AgentControlPlane).statusReady =
        acpEx.statusReady) :=
  ⟨⟨rfl,
    ready_iff_adding_hosts.1 stC9 "aci9" "ns1" aci9 acpEx acpEx stC9
      rfl (by decide) rfl rfl rfl rfl⟩,
   ⟨rfl,
    fun a a₁ ha ha₁ => ready_iff_adding_hosts.2 stEx "aci1" "ns1" aciEx rfl rfl
      "acp1" "ns1" a a₁ ha ha₁,
    by decide, rfl⟩⟩
